import Mathlib

/-!
# glsl-language-server: dispatcher and diagnostic translation

A shallow embedding of `src/main.cpp` (`make_response`, `find_language`,
`get_diagnostics`, `handle_message`) and of the `Workspace` class declared in
`src/workspace.hpp`.

Conventions of the embedding.

* A `std::string` is a `String`; one `Char` stands for one `char`, so that
  `size()`, `length()` and `find` count characters of the `String`.
* A C++ exception, and the undefined behaviour of an unchecked
  `std::vector::operator[]`, end the computation: fallible code returns
  `Except Abort _`.
* `int` and `std::size_t` values are integers with the conversions written out
  (`to_int`, `to_size_t`).
* Writes to the log file (`fmt::print(appstate.logfile_stream, ...)`) change
  neither a returned value nor the workspace and are left out.
* The JSON serialiser (`dump(4)`) and the glslang front end are libraries the
  repository links against; they are the two fields of `Libraries`.
-/

namespace GlslLs

/-! ## Ways a call can end without returning -/

/-- The exceptions the code can raise, and the one undefined behaviour it can run
into. -/
inductive Abort where
  /-- A `nlohmann::json` `type_error` with its numeric id (302: wrong type for a
  conversion, 305: `operator[]` on a value of the wrong kind, 308: `push_back`
  on a value that is neither null nor an array). -/
  | type_error (id : Nat)
  /-- The `std::invalid_argument` exception with its `what()` text. -/
  | invalid_argument (what : String)
  /-- The `std::out_of_range` exception with its `what()` text. -/
  | out_of_range (what : String)
  /-- An unchecked `std::vector::operator[]` with an index outside the vector:
  undefined behaviour. -/
  | vector_out_of_bounds
  deriving DecidableEq, Repr

/-! ## JSON values (`nlohmann::json`) -/

/-- A JSON value. Objects are association lists; the first entry of a key is the
one that counts. -/
inductive Json where
  | null
  | bool (b : Bool)
  | num (n : Int)
  | str (s : String)
  | arr (elems : List Json)
  | obj (members : List (String × Json))
  deriving Repr

namespace Json

/-- The value stored under `key` in an association list. -/
def assocGet (key : String) : List (String × Json) → Option Json
  | [] => none
  | (k, v) :: rest => if k = key then some v else assocGet key rest

/-- Store `v` under `key`: overwrite the entry when there is one, add one
otherwise. -/
def assocSet (key : String) (v : Json) : List (String × Json) → List (String × Json)
  | [] => [(key, v)]
  | (k, w) :: rest => if k = key then (k, v) :: rest else (k, w) :: assocSet key v rest

/-- The member `key` of an object, when the value is an object that has it. -/
def lookup (j : Json) (key : String) : Option Json :=
  match j with
  | obj members => assocGet key members
  | _ => none

/-- The member at the end of a path of keys. -/
def path (j : Json) : List String → Option Json
  | [] => some j
  | k :: ks => match j.lookup k with
    | some v => v.path ks
    | none => none

/-- The non-const `operator[](key)`: a null value becomes an empty object first,
a missing key is added with a null value, and a value that is neither null nor
an object raises `type_error` 305. Returns the element and the value as it is
after the call. -/
def subscript (j : Json) (key : String) : Except Abort (Json × Json) :=
  match j with
  | null => .ok (null, obj [(key, null)])
  | obj members =>
    match assocGet key members with
    | some v => .ok (v, obj members)
    | none => .ok (null, obj (assocSet key null members))
  | _ => .error (.type_error 305)

/-- The element `j[key]` alone. -/
def member (j : Json) (key : String) : Except Abort Json :=
  (j.subscript key).map Prod.fst

/-- The non-const `operator[](idx)` read as a value: a null value becomes an
array first, an array shorter than `idx + 1` is filled up with null values, and
a value that is neither null nor an array raises `type_error` 305. -/
def element (j : Json) (idx : Nat) : Except Abort Json :=
  match j with
  | null => .ok null
  | arr elems => .ok (elems.getD idx null)
  | _ => .error (.type_error 305)

/-- The assignment `j[key] = v`. -/
def assign (j : Json) (key : String) (v : Json) : Except Abort Json :=
  match j with
  | null => .ok (obj [(key, v)])
  | obj members => .ok (obj (assocSet key v members))
  | _ => .error (.type_error 305)

/-- The call `j.push_back(v)`: a null value becomes an empty array first. -/
def push_back (j : Json) (v : Json) : Except Abort Json :=
  match j with
  | null => .ok (arr [v])
  | arr elems => .ok (arr (elems ++ [v]))
  | _ => .error (.type_error 308)

/-- The call `j.empty()`: true for null and for an array or object without
elements, false for every other value. -/
def empty (j : Json) : Bool :=
  match j with
  | null => true
  | arr [] => true
  | obj [] => true
  | _ => false

/-- The call `j.count(key)`. -/
def count (j : Json) (key : String) : Nat :=
  match j with
  | obj members => if (assocGet key members).isSome then 1 else 0
  | _ => 0

/-- The comparison `j == "text"` of a value with a string literal. -/
def eq_str (j : Json) (text : String) : Bool :=
  match j with
  | str s => decide (s = text)
  | _ => false

/-- The conversion of a value to `std::string` (`get<std::string>()` and the
implicit conversion): `type_error` 302 unless the value is a string. -/
def get_string (j : Json) : Except Abort String :=
  match j with
  | str s => .ok s
  | _ => .error (.type_error 302)

end Json

/-! ## Integer conversions -/

/-- Conversion of an integer value to `int` (32 bits, two's complement). -/
def to_int (z : Int) : Int := (z + 2 ^ 31) % 2 ^ 32 - 2 ^ 31

/-- Conversion of an integer value to `std::size_t` (64 bits, unsigned). -/
def to_size_t (z : Int) : Nat := (z % 2 ^ 64).toNat

/-- The constant `std::string::npos`. -/
def npos : Nat := 2 ^ 64 - 1

/-! ## Library string functions -/

/-- Whether `needle` starts the text. -/
def starts_with : List Char → List Char → Bool
  | [], _ => true
  | _ :: _, [] => false
  | n :: ns, c :: cs => n == c && starts_with ns cs

/-- Offset of the first place at or after `pos` where `needle` starts, scanning
from the left. -/
def find_from (needle : List Char) : List Char → Nat → Option Nat
  | [], pos => if starts_with needle [] then some pos else none
  | c :: cs, pos =>
    if starts_with needle (c :: cs) then some pos else find_from needle cs (pos + 1)

/-- The call `text.find(needle)`: the lowest position at which `needle` occurs,
`npos` when there is none. -/
def find (text needle : String) : Nat :=
  match find_from needle.data text.data 0 with
  | some pos => pos
  | none => npos

/-- The C function `isspace` in the "C" locale. -/
def isspace (c : Char) : Bool :=
  c == ' ' || c == '\t' || c == '\n' || c == '\x0b' || c == '\x0c' || c == '\r'

/-- The value of a decimal digit. -/
def digit_value (c : Char) : Nat := c.toNat - '0'.toNat

/-- The number a run of decimal digits denotes, continuing from `acc`. -/
def decimal_value : List Char → Nat → Nat
  | [], acc => acc
  | c :: cs, acc => decimal_value cs (10 * acc + digit_value c)

/-- The integer a sign and a run of decimal digits denote. -/
def signed_value (negative : Bool) (digits : List Char) : Int :=
  if negative then - (decimal_value digits 0 : Int) else decimal_value digits 0

/-- The end of `std::stoi`: the value of the digits read, with its sign;
`std::invalid_argument` when there is no digit, `std::out_of_range` when the
value does not fit an `int`. -/
def stoi_value (negative : Bool) (digits : List Char) : Except Abort Int :=
  if digits.isEmpty then .error (.invalid_argument "stoi")
  else if signed_value negative digits < - 2 ^ 31 ∨ 2 ^ 31 - 1 < signed_value negative digits then
    .error (.out_of_range "stoi")
  else .ok (signed_value negative digits)

/-- The call `std::stoi(text)`: leading white space and one sign are skipped and
the longest run of decimal digits is read. -/
def stoi (text : String) : Except Abort Int :=
  let body := text.data.dropWhile isspace
  let negative := body.head? == some '-'
  let unsigned := if body.head? == some '-' || body.head? == some '+' then body.tail else body
  stoi_value negative (unsigned.takeWhile Char.isDigit)

/-- The unchecked `v[index]` of a `std::vector`, where the `int` index is
converted to `std::size_t`. -/
def vector_at (v : List String) (index : Int) : Except Abort String :=
  match v.get? (to_size_t index) with
  | some x => .ok x
  | none => .error .vector_out_of_bounds

/-! ## `std::regex`, for the two patterns of `get_diagnostics` -/

/-- What a pattern can ask of one character. -/
inductive Atom where
  /-- The pattern `.`: every character but a line terminator. -/
  | any
  /-- The pattern `\d`. -/
  | digit
  deriving DecidableEq, Repr

/-- Whether the atom accepts the character. -/
def Atom.accepts : Atom → Char → Bool
  | .any, c => c != '\n' && c != '\r'
  | .digit, c => c.isDigit

/-- A piece of a pattern: literal text, or a capture group around a greedy
repetition `(a*)` of one atom. -/
inductive Piece where
  | lit (text : List Char)
  | cap (a : Atom)
  deriving DecidableEq, Repr

/-- The result of a successful match from a fixed start: the matched text and
the captures, in order. -/
structure Match where
  whole : List Char
  groups : List (List Char)
  deriving DecidableEq, Repr

/-- Put literal text in front of a match. -/
def Match.prepend (text : List Char) (m : Match) : Match :=
  { whole := text ++ m.whole, groups := m.groups }

/-- Put a capture in front of a match. -/
def Match.capture (g : List Char) (m : Match) : Match :=
  { whole := g ++ m.whole, groups := g :: m.groups }

/-- A greedy `a*` followed by the rest of the pattern `k`: the longest run is
tried first, and a shorter one only when the rest fails after the longer.
Returns the run and the match of the rest. -/
def star_greedy (a : Atom) (k : List Char → Option Match) :
    List Char → Option (List Char × Match)
  | [] => (k []).map (fun m => ([], m))
  | c :: cs =>
    if a.accepts c then
      match star_greedy a k cs with
      | some (run, m) => some (c :: run, m)
      | none => (k (c :: cs)).map (fun m => ([], m))
    else (k (c :: cs)).map (fun m => ([], m))

/-- Match the pattern at the start of the text, backtracking. -/
def match_here : List Piece → List Char → Option Match
  | [], _ => some { whole := [], groups := [] }
  | .lit text :: rest, input =>
    if starts_with text input then
      (match_here rest (input.drop text.length)).map (Match.prepend text)
    else none
  | .cap a :: rest, input =>
    (star_greedy a (match_here rest) input).map (fun r => Match.capture r.1 r.2)

/-- The leftmost match: every start position is tried from the left. -/
def search_from (pattern : List Piece) : List Char → Option Match
  | [] => match_here pattern []
  | c :: cs =>
    match match_here pattern (c :: cs) with
    | some m => some m
    | none => search_from pattern cs

/-- The call `std::regex_search(text, matches, re)` read through `matches`:
after a match, `matches[0]` is the matched text and `matches[i]` the `i`-th
capture; after a failure `matches` has size 0. -/
def regex_search (pattern : List Piece) (text : String) : List String :=
  match search_from pattern text.data with
  | some m => (m.whole :: m.groups).map String.mk
  | none => []

/-- The pattern `(.*): 0:(\d*): (.*)` of `get_diagnostics`. -/
def re_diagnostic : List Piece :=
  [.cap .any, .lit [':', ' ', '0', ':'], .cap .digit, .lit [':', ' '], .cap .any]

/-- The pattern `'(.*)' : (.*)` of `get_diagnostics`. -/
def re_identifier : List Piece :=
  [.lit ['\''], .cap .any, .lit ['\'', ' ', ':', ' '], .cap .any]

/-! ## `utils.hpp` -/

/-- Cut the text at every occurrence of the separator; `skip` counts the
characters of a separator still to be passed over, `cur` holds the current part
in reverse. -/
def split_aux (sep : List Char) : List Char → Nat → List Char → List (List Char)
  | [], _, cur => [cur.reverse]
  | _ :: cs, skip + 1, cur => split_aux sep cs skip cur
  | c :: cs, 0, cur =>
    if !sep.isEmpty && starts_with sep (c :: cs) then
      cur.reverse :: split_aux sep cs (sep.length - 1) []
    else split_aux sep cs 0 (c :: cur)

/-- Modelled from the spec: `split_string` of `utils.hpp`, whose definition is
outside the sources embedded here; the spec has it split a text into its
lines. The parts between the occurrences of the separator, in order. -/
def split_string (text sep : String) : List String :=
  (split_aux sep.data text.data 0 []).map String.mk

/-- Modelled from the spec: `trim` of `utils.hpp`, whose definition is outside
the sources embedded here; the spec has it remove leading and trailing
spaces. The text without the leading and trailing characters that belong to
`delims`. -/
def trim (text delims : String) : String :=
  String.mk (((text.data.dropWhile (fun c => delims.data.contains c)).reverse.dropWhile
    (fun c => delims.data.contains c)).reverse)

/-! ## `workspace.hpp` -/

/-- The class `Workspace`: the flag `m_initialized` and the map `m_documents`
from document name to text. -/
structure Workspace where
  m_initialized : Bool
  m_documents : String → Option String

namespace Workspace

/-- The state of a default-constructed `Workspace`. -/
def init : Workspace := { m_initialized := false, m_documents := fun _ => none }

/-- Modelled from the spec: `Workspace::is_initialized`, declared in
`workspace.hpp`, defined outside the sources embedded here. -/
def is_initialized (w : Workspace) : Bool := w.m_initialized

/-- Modelled from the spec: `Workspace::set_initialized`, declared in
`workspace.hpp`, defined outside the sources embedded here. -/
def set_initialized (w : Workspace) (new_value : Bool) : Workspace :=
  { w with m_initialized := new_value }

/-- Modelled from the spec: `Workspace::documents`, declared in `workspace.hpp`,
defined outside the sources embedded here. -/
def documents (w : Workspace) : String → Option String := w.m_documents

/-- The assignment `m[key] = text` on a `std::map`. -/
def map_assign (m : String → Option String) (key text : String) : String → Option String :=
  fun k => if k = key then some text else m k

/-- Modelled from the spec: `Workspace::add_document`, declared in
`workspace.hpp`, defined outside the sources embedded here; it inserts or overwrites. -/
def add_document (w : Workspace) (key text : String) : Workspace :=
  { w with m_documents := map_assign w.m_documents key text }

/-- Modelled from the spec: `Workspace::change_document`, declared in
`workspace.hpp`, defined outside the sources embedded here; it overwrites only when a
document exists under `key` and returns whether one did. -/
def change_document (w : Workspace) (key text : String) : Bool × Workspace :=
  match w.m_documents key with
  | some _ => (true, { w with m_documents := map_assign w.m_documents key text })
  | none => (false, w)

/-- The expression `documents()[key]` on the `std::map`: a missing key is
inserted with the empty text. Returns the text and the workspace afterwards. -/
def documents_subscript (w : Workspace) (key : String) : String × Workspace :=
  match w.m_documents key with
  | some text => (text, w)
  | none => ("", { w with m_documents := map_assign w.m_documents key "" })

end Workspace

/-- The struct `AppState` of `lib/appstate.hpp`, without its log stream. -/
structure AppState where
  workspace : Workspace
  verbose : Bool
  use_logfile : Bool

/-! ## `main.cpp` -/

/-- The shader stages of glslang's `EShLanguage` that `find_language` returns. -/
inductive EShLanguage where
  | EShLangVertex
  | EShLangTessControl
  | EShLangTessEvaluation
  | EShLangGeometry
  | EShLangFragment
  | EShLangCompute
  deriving DecidableEq, Repr

/-- The libraries behind `main.cpp`. -/
structure Libraries where
  /-- The call `j.dump(4)` of `nlohmann::json`. -/
  dump : Json → String
  /-- The glslang run of `get_diagnostics` (lines 74 to 81): parse the text as a
  shader of the given stage and return the info log. -/
  info_log : EShLanguage → String → String

/-- The function `make_response`. -/
def make_response (lib : Libraries) (response : Json) : Except Abort String := do
  let content ← response.assign "jsonrpc" (.str "2.0")
  let header := "Content-Length: " ++ toString (lib.dump content).length ++ "\r\n"
  let header := header ++ "Content-Type: application/vscode-jsonrpc;charset=utf-8\r\n"
  let header := header ++ "\r\n"
  return header ++ lib.dump content

/-- The part of the text after the last `sep`, the whole text when there is
none. -/
def after_last (sep : Char) (text : List Char) : List Char :=
  (text.reverse.takeWhile (fun c => c != sep)).reverse

/-- The call `fs::path(name).extension()` of `std::experimental::filesystem`: the
file name is what follows the last `/`; unless it is `.` or `..`, its extension
is its part from the last period on, and empty when it has no period. -/
def extension (name : String) : String :=
  let filename := after_last '/' name.data
  if filename = ['.'] ∨ filename = ['.', '.'] then ""
  else if filename.contains '.' then String.mk ('.' :: after_last '.' filename)
  else ""

/-- The function `find_language`. -/
def find_language (name : String) : Except Abort EShLanguage :=
  let ext := extension name
  if ext = ".vert" ∨ ext = ".vs" then .ok .EShLangVertex
  else if ext = ".tesc" then .ok .EShLangTessControl
  else if ext = ".tese" then .ok .EShLangTessEvaluation
  else if ext = ".geom" ∨ ext = ".gs" then .ok .EShLangGeometry
  else if ext = ".frag" ∨ ext = ".fs" then .ok .EShLangFragment
  else if ext = ".comp" then .ok .EShLangCompute
  else .error (.invalid_argument "Unknown file extension!")

/-- Lines 99 to 104 of `get_diagnostics`: the number of a severity token. -/
def severity_no (severity : String) : Int :=
  if severity = "ERROR" then 1
  else if severity = "WARNING" then 2
  else -1

/-- Lines 116 to 134 of `get_diagnostics`: the `int` pair `start_char`,
`end_char` for a message and the source line it is about. -/
def char_range (message source_line : String) : Int × Int :=
  let message_matches := regex_search re_identifier message
  if message_matches.length = 3 then
    let identifier := message_matches.getD 1 ""
    let identifier_length : Int := to_int (message_matches.getD 1 "").length
    let source_pos : Nat := find source_line identifier
    let start_char := to_int source_pos
    let end_char := to_int (to_size_t (source_pos + identifier_length - 1))
    (start_char, end_char)
  else
    (0, to_int source_line.length)

/-- The JSON value of a diagnostic with the given range, severity and
message. -/
def diagnostic_json (line_no start_char end_char severity_no : Int) (message : String) : Json :=
  .obj [("range", .obj
          [("start", .obj [("line", .num line_no), ("character", .num start_char)]),
           ("end", .obj [("line", .num line_no), ("character", .num end_char)])]),
        ("severity", .num severity_no),
        ("source", .str "glslang"),
        ("message", .str message)]

/-- Lines 136 to 149 of `get_diagnostics`: the JSON value of one diagnostic,
built member by member. -/
def make_diagnostic (line_no start_char end_char severity_no : Int) (message : String) :
    Except Abort Json := do
  let range := Json.obj
    [("start", .obj [("line", .num line_no), ("character", .num start_char)]),
     ("end", .obj [("line", .num line_no), ("character", .num end_char)])]
  let diagnostic := Json.null
  let diagnostic ← diagnostic.assign "range" range
  let diagnostic ← diagnostic.assign "severity" (.num severity_no)
  let diagnostic ← diagnostic.assign "source" (.str "glslang")
  let diagnostic ← diagnostic.assign "message" (.str message)
  return diagnostic

/-- Lines 97 to 149 of `get_diagnostics`: the diagnostic of a log line, from
what the pattern captured in it (`smatch` stands for `matches`). -/
def line_diagnostic (content_lines : List String) (smatch : List String) :
    Except Abort Json := do
  let severity := smatch.getD 1 ""
  let severity_no := severity_no severity
  let message := trim (smatch.getD 3 "") " "
  let line_no := to_int ((← stoi (smatch.getD 2 "")) - 1)
  let source_line ← vector_at content_lines line_no
  let (start_char, end_char) := char_range message source_line
  make_diagnostic line_no start_char end_char severity_no message

/-- The body of the loop of `get_diagnostics` (lines 95 to 151): the value of
`diagnostics` after one more line of the log. -/
def diagnostics_step (content_lines : List String) (diagnostics : Json) (error_line : String) :
    Except Abort Json :=
  let smatch := regex_search re_diagnostic error_line
  if smatch.length = 4 then do
    let diagnostic ← line_diagnostic content_lines smatch
    diagnostics.push_back diagnostic
  else .ok diagnostics

/-- The loop of `get_diagnostics` over the lines of the log. -/
def diagnostics_loop (content_lines : List String) : Json → List String → Except Abort Json
  | diagnostics, [] => .ok diagnostics
  | diagnostics, error_line :: rest => do
    let diagnostics ← diagnostics_step content_lines diagnostics error_line
    diagnostics_loop content_lines diagnostics rest

/-- Lines 88 to 157 of `get_diagnostics`: the translation of a log into
diagnostics. -/
def translate (debug_log content : String) : Except Abort Json :=
  let error_lines := split_string debug_log "\n"
  let content_lines := split_string content "\n"
  diagnostics_loop content_lines .null error_lines

/-- The function `get_diagnostics`. -/
def get_diagnostics (lib : Libraries) (uri content : String) : Except Abort Json := do
  let document := uri
  let lang ← find_language document
  let debug_log := lib.info_log lang content
  translate debug_log content

/-- What a call of `handle_message` leaves behind: the value it returned or the
way it ended, and the application state afterwards. -/
structure Outcome where
  result : Except Abort (Option String)
  appstate : AppState

/-- Lines 171 to 227 of `handle_message`: the body of the answer to
`initialize`. -/
def initialize_result_body (id : Json) : Json :=
  let text_document_sync := Json.obj
    [("openClose", .bool true),
     ("change", .num 1),
     ("willSave", .bool false),
     ("willSaveWaitUntil", .bool false),
     ("save", .obj [("includeText", .bool false)])]
  let completion_provider := Json.obj
    [("resolveProvider", .bool false), ("triggerCharacters", .null)]
  let signature_help_provider := Json.obj [("triggerCharacters", .str "")]
  let code_lens_provider := Json.obj [("resolveProvider", .bool false)]
  let document_on_type_formatting_provider := Json.obj
    [("firstTriggerCharacter", .str ""), ("moreTriggerCharacter", .str "")]
  let document_link_provider := Json.obj [("resolveProvider", .bool false)]
  let execute_command_provider := Json.obj [("commands", .null)]
  let result := Json.obj
    [("capabilities", .obj
      [("textDocumentSync", text_document_sync),
       ("hoverProvider", .bool false),
       ("completionProvider", completion_provider),
       ("signatureHelpProvider", signature_help_provider),
       ("definitionProvider", .bool false),
       ("referencesProvider", .bool false),
       ("documentHighlightProvider", .bool false),
       ("documentSymbolProvider", .bool false),
       ("workspaceSymbolProvider", .bool false),
       ("codeActionProvider", .bool false),
       ("codeLensProvider", code_lens_provider),
       ("documentFormattingProvider", .bool false),
       ("documentRangeFormattingProvider", .bool false),
       ("documentOnTypeFormattingProvider", document_on_type_formatting_provider),
       ("renameProvider", .bool false),
       ("documentLinkProvider", document_link_provider),
       ("executeCommandProvider", execute_command_provider),
       ("experimental", .null)])]
  .obj [("id", id), ("result", result)]

/-- The body of a `textDocument/publishDiagnostics` notification (lines 238 to
244 and 256 to 262). -/
def publish_body (uri diagnostics : Json) : Json :=
  .obj [("method", .str "textDocument/publishDiagnostics"),
        ("params", .obj [("uri", uri), ("diagnostics", diagnostics)])]

/-- The body of an error answer (lines 270 to 276, 282 to 288, 293 to 299). -/
def error_body (code : Int) (message : String) : Json :=
  .obj [("error", .obj [("code", .num code), ("message", .str message)])]

/-- Lines 234 to 245 and 252 to 263 of `handle_message`: validate the text and
build the notification. -/
def publish_diagnostics (lib : Libraries) (uri text : String) : Except Abort (Option String) := do
  let diagnostics ← get_diagnostics lib uri text
  let diagnostics := if diagnostics.empty then Json.arr [] else diagnostics
  let response ← make_response lib (publish_body (.str uri) diagnostics)
  return some response

/-- Lines 230 to 245 of `handle_message`, the branch of `textDocument/didOpen`.
The members `operator[]` adds below `body["params"]` on the way are not read
again and are not recorded. -/
def did_open (lib : Libraries) (body : Json) (appstate : AppState) : Outcome :=
  let arguments : Except Abort (String × String) := do
    let uri ← (← (← body.member "params").member "textDocument").member "uri"
    let text ← (← (← body.member "params").member "textDocument").member "text"
    return (← uri.get_string, ← text.get_string)
  match arguments with
  | .error e => { result := .error e, appstate := appstate }
  | .ok (uri, text) =>
    let appstate := { appstate with workspace := appstate.workspace.add_document uri text }
    { result := publish_diagnostics lib uri text, appstate := appstate }

/-- Lines 247 to 263 of `handle_message`, the branch of
`textDocument/didChange`. The members `operator[]` adds below `body["params"]`
on the way are not read again and are not recorded. -/
def did_change (lib : Libraries) (body : Json) (appstate : AppState) : Outcome :=
  let arguments : Except Abort (String × String) := do
    let uri ← (← (← body.member "params").member "textDocument").member "uri"
    let change ←
      (← (← (← body.member "params").member "contentChanges").element 0).member "text"
    return (← uri.get_string, ← change.get_string)
  match arguments with
  | .error e => { result := .error e, appstate := appstate }
  | .ok (uri, change) =>
    let workspace := (appstate.workspace.change_document uri change).2
    let (document, workspace) := workspace.documents_subscript uri
    let appstate := { appstate with workspace := workspace }
    { result := publish_diagnostics lib uri document, appstate := appstate }

/-- The function `handle_message`, applied to the body of the message buffer. -/
def handle_message (lib : Libraries) (body : Json) (appstate : AppState) : Outcome :=
  -- `body` is a copy; `body["method"]` adds the member when it is missing
  match body.subscript "method" with
  | .error e => { result := .error e, appstate := appstate }
  | .ok (method, body) =>
    if method.eq_str "initialized" then
      { result := .ok none, appstate := appstate }
    else if method.eq_str "initialize" then
      let appstate := { appstate with workspace := appstate.workspace.set_initialized true }
      { result := do
          let id ← body.member "id"
          let response ← make_response lib (initialize_result_body id)
          return some response,
        appstate := appstate }
    else if method.eq_str "textDocument/didOpen" then
      did_open lib body appstate
    else if method.eq_str "textDocument/didChange" then
      did_change lib body appstate
    else if !(method.eq_str "initialize") && !appstate.workspace.is_initialized then
      { result := (make_response lib (error_body (-32002) "Server not yet initialized.")).map some,
        appstate := appstate }
    else if body.count "method" = 1 then
      { result := do
          let name ← method.get_string
          let message := "Method '" ++ name ++ "' not supported."
          let response ← make_response lib (error_body (-32601) message)
          return some response,
        appstate := appstate }
    else
      { result := (make_response lib (error_body (-32700) "Couldn't parse message.")).map some,
        appstate := appstate }

/-! ## Notions used to state the properties -/

/-- The value of `diagnostics` in `get_diagnostics` when the diagnostics pushed
so far are `ds`: null before the first `push_back`, an array afterwards. -/
def diagnostics_value (ds : List Json) : Json :=
  match ds with
  | [] => .null
  | _ :: _ => .arr ds

/-- The log line matches the pattern `(.*): 0:(\d*): (.*)`. -/
def is_diagnostic_line (line : String) : Bool :=
  (regex_search re_diagnostic line).length == 4

/-- The line number captured in the log line is one `std::stoi` reads, and the
source has a line of that number (counted from 1). -/
def refers_to_source_line (content_lines : List String) (line : String) : Bool :=
  match stoi ((regex_search re_diagnostic line).getD 2 "") with
  | .ok n => decide (1 ≤ n ∧ n ≤ content_lines.length)
  | .error _ => false

/-- The text `needle` occurs in `text` at offset `i`. -/
def occurs_at (needle text : List Char) (i : Nat) : Prop :=
  needle <+: text.drop i

/-- Offset `i` is the first one at which `needle` occurs in `text`. -/
def first_occurrence (needle text : List Char) (i : Nat) : Prop :=
  occurs_at needle text i ∧ ∀ j, j < i → ¬ occurs_at needle text j

instance (needle text : List Char) (i : Nat) : Decidable (occurs_at needle text i) := by
  unfold occurs_at; infer_instance

instance (needle text : List Char) (i : Nat) : Decidable (first_occurrence needle text i) := by
  unfold first_occurrence; infer_instance

/-- The message has the method `initialize`. -/
def is_initialize_request (body : Json) : Bool :=
  match body.lookup "method" with
  | some method => method.eq_str "initialize"
  | none => false

/-! ## Concrete inputs -/

mutual
/-- A compact JSON printer, standing in for `dump(4)` at concrete inputs. -/
def render : Json → String
  | .null => "null"
  | .bool b => if b then "true" else "false"
  | .num n => toString n
  | .str s => "\"" ++ s ++ "\""
  | .arr elems => "[" ++ render_elems elems ++ "]"
  | .obj members => "\x7b" ++ render_members members ++ "\x7d"
/-- The elements of an array, separated by commas. -/
def render_elems : List Json → String
  | [] => ""
  | [x] => render x
  | x :: rest => render x ++ "," ++ render_elems rest
/-- The members of an object, separated by commas. -/
def render_members : List (String × Json) → String
  | [] => ""
  | [(k, v)] => "\"" ++ k ++ "\":" ++ render v
  | (k, v) :: rest => "\"" ++ k ++ "\":" ++ render v ++ "," ++ render_members rest
end

/-- Stand-ins for the libraries at concrete inputs: the compact printer, and a
validator that reports the given log whatever the shader. -/
def sample_libraries (log : String) : Libraries :=
  { dump := render, info_log := fun _ _ => log }

/-- The application state at start-up: no document, not initialized. -/
def fresh_state : AppState :=
  { workspace := Workspace.init, verbose := false, use_logfile := false }

/-- The application state after `initialize`, with no document. -/
def ready_state : AppState :=
  { workspace := Workspace.init.set_initialized true, verbose := false, use_logfile := false }

/-- The application state after `initialize`, with the one document `uri` of
text `text`. -/
def state_with_document (uri text : String) : AppState :=
  { ready_state with workspace := ready_state.workspace.add_document uri text }

/-- A `textDocument/didOpen` message for the document `uri` with text `text`. -/
def did_open_message (uri text : String) : Json :=
  .obj [("method", .str "textDocument/didOpen"),
        ("params", .obj [("textDocument", .obj [("uri", .str uri), ("text", .str text)])])]

/-- A `textDocument/didChange` message for the document `uri` with one content
change of text `text`. -/
def did_change_message (uri text : String) : Json :=
  .obj [("method", .str "textDocument/didChange"),
        ("params", .obj [("textDocument", .obj [("uri", .str uri)]),
                         ("contentChanges", .arr [.obj [("text", .str text)]])])]

/-! ## Lemmas on JSON values -/

set_option maxRecDepth 100000

theorem Json.subscript_of_lookup (j : Json) (key : String) (v : Json)
    (h : j.lookup key = some v) : j.subscript key = .ok (v, j) := by
  cases j <;> simp [Json.lookup] at h
  simp [Json.subscript, h]

theorem Json.member_of_lookup (j : Json) (key : String) (v : Json)
    (h : j.lookup key = some v) : j.member key = .ok v := by
  simp [Json.member, Json.subscript_of_lookup j key v h, Except.map]

theorem Json.count_of_lookup (j : Json) (key : String) (v : Json)
    (h : j.lookup key = some v) : j.count key = 1 := by
  cases j <;> simp [Json.lookup] at h
  simp [Json.count, h]

theorem Json.assocGet_assocSet_self (key : String) (v : Json) (members : List (String × Json)) :
    Json.assocGet key (Json.assocSet key v members) = some v := by
  induction members with
  | nil => simp [Json.assocSet, Json.assocGet]
  | cons kv rest ih =>
    obtain ⟨k, w⟩ := kv
    by_cases hk : k = key
    · simp [Json.assocSet, Json.assocGet, hk]
    · simp [Json.assocSet, Json.assocGet, hk, ih]

/-- After `j[key]` the value is an object that has the member `key`. -/
theorem Json.count_after_subscript (j : Json) (key : String) (v j' : Json)
    (h : j.subscript key = .ok (v, j')) : j'.count key = 1 := by
  cases j with
  | null =>
    simp only [Json.subscript, Except.ok.injEq, Prod.mk.injEq] at h
    rw [← h.2]; simp [Json.count, Json.assocGet]
  | obj members =>
    simp only [Json.subscript] at h
    cases hg : Json.assocGet key members with
    | some w =>
      rw [hg] at h
      simp only [Except.ok.injEq, Prod.mk.injEq] at h
      rw [← h.2]; simp [Json.count, hg]
    | none =>
      rw [hg] at h
      simp only [Except.ok.injEq, Prod.mk.injEq] at h
      rw [← h.2]; simp [Json.count, Json.assocGet_assocSet_self]
  | bool b => simp [Json.subscript] at h
  | num n => simp [Json.subscript] at h
  | str s => simp [Json.subscript] at h
  | arr elems => simp [Json.subscript] at h

/-- On an object `make_response` returns: the headers, then the serialised
object with the member `jsonrpc` set. -/
theorem make_response_obj (lib : Libraries) (members : List (String × Json)) :
    make_response lib (.obj members) = .ok
      ("Content-Length: "
        ++ toString (lib.dump (.obj (Json.assocSet "jsonrpc" (.str "2.0") members))).length
        ++ "\r\n" ++ "Content-Type: application/vscode-jsonrpc;charset=utf-8\r\n" ++ "\r\n"
        ++ lib.dump (.obj (Json.assocSet "jsonrpc" (.str "2.0") members))) := by
  rfl

/-! ## The dispatcher -/

/-- A message without a `method` member never gets the answer -32700: on a null
or object body the member is added by `body["method"]`, so an uninitialized
server answers -32002 and an initialized one ends in `type_error` 302 when the
null method is converted to a string; on any other body `body["method"]` itself
raises `type_error` 305. -/
theorem handle_message_without_method (lib : Libraries) (body : Json) (st : AppState)
    (h : body.lookup "method" = none) :
    handle_message lib body st =
      { result :=
          match body with
          | .null | .obj _ =>
            if st.workspace.is_initialized then .error (.type_error 302)
            else (make_response lib (error_body (-32002) "Server not yet initialized.")).map some
          | _ => .error (.type_error 305),
        appstate := st } := by
  cases body with
  | null =>
    cases hi : st.workspace.is_initialized <;>
      simp [handle_message, Json.subscript, Json.eq_str, hi, Json.count, Json.assocGet,
        Json.get_string, bind, Except.bind]
  | obj members =>
    simp only [Json.lookup] at h
    cases hi : st.workspace.is_initialized <;>
      simp [handle_message, Json.subscript, h, Json.eq_str, hi, Json.count,
        Json.assocGet_assocSet_self, Json.get_string, bind, Except.bind]
  | bool b => simp [handle_message, Json.subscript]
  | num n => simp [handle_message, Json.subscript]
  | str s => simp [handle_message, Json.subscript]
  | arr elems => simp [handle_message, Json.subscript]

/-- C1, the code at a failing input: a `textDocument/didOpen` that arrives
before `initialize` is processed. The server is not initialized, yet the answer
is the `publishDiagnostics` notification for the document (here without
diagnostics), not the error -32002, and the document is in the workspace
afterwards, the server still not initialized. -/
theorem C1_did_open_before_initialize_is_processed :
    fresh_state.workspace.is_initialized = false ∧
    (handle_message (sample_libraries "") (did_open_message "shader.frag" "void main() \x7b\x7d")
        fresh_state).result
      = (make_response (sample_libraries "")
          (publish_body (.str "shader.frag") (.arr []))).map some ∧
    (∃ response, make_response (sample_libraries "")
        (publish_body (.str "shader.frag") (.arr [])) = .ok response) ∧
    (handle_message (sample_libraries "") (did_open_message "shader.frag" "void main() \x7b\x7d")
        fresh_state).appstate.workspace.documents "shader.frag" = some "void main() \x7b\x7d" ∧
    (handle_message (sample_libraries "") (did_open_message "shader.frag" "void main() \x7b\x7d")
        fresh_state).appstate.workspace.is_initialized = false := by
  refine ⟨rfl, rfl, ⟨_, rfl⟩, rfl, rfl⟩

/-- C2, the code at a failing input: the empty object has no `method` member.
Whatever the libraries, an initialized server ends in `type_error` 302 without
an answer and an uninitialized one gives the answer -32002, whose body is not
that of the answer -32700. -/
theorem C2_no_method_never_parse_error (lib : Libraries) :
    (handle_message lib (.obj []) ready_state).result = .error (.type_error 302) ∧
    (handle_message lib (.obj []) fresh_state).result
      = (make_response lib (error_body (-32002) "Server not yet initialized.")).map some ∧
    error_body (-32002) "Server not yet initialized."
      ≠ error_body (-32700) "Couldn't parse message." := by
  refine ⟨rfl, rfl, ?_⟩
  simp [error_body]

/-- C3: whatever the state, a message with method `initialize` and id `id` is
answered by `make_response` of a body whose `id` is `id` and whose
`result.capabilities.textDocumentSync.change` is 1; afterwards the server is
initialized and the documents are the same. -/
theorem C3_initialize (lib : Libraries) (body : Json) (st : AppState) (id : Json)
    (hm : body.lookup "method" = some (.str "initialize"))
    (hid : body.lookup "id" = some id) :
    ∃ result_body response,
      make_response lib result_body = .ok response ∧
      (handle_message lib body st).result = .ok (some response) ∧
      result_body.lookup "id" = some id ∧
      result_body.path ["result", "capabilities", "textDocumentSync", "change"]
        = some (.num 1) ∧
      (handle_message lib body st).appstate.workspace.is_initialized = true ∧
      (handle_message lib body st).appstate.workspace.documents = st.workspace.documents := by
  refine ⟨initialize_result_body id, _, make_response_obj lib _, ?_, rfl, rfl, ?_, ?_⟩
  · simp only [handle_message, Json.subscript_of_lookup _ _ _ hm,
      Json.member_of_lookup _ _ _ hid]
    simp [Json.eq_str, initialize_result_body, make_response_obj, bind, Except.bind, pure,
      Except.pure]
  · simp [handle_message, Json.subscript_of_lookup _ _ _ hm, Json.eq_str,
      Workspace.is_initialized, Workspace.set_initialized]
  · simp [handle_message, Json.subscript_of_lookup _ _ _ hm, Json.eq_str,
      Workspace.documents, Workspace.set_initialized]

/-- C3 at a concrete input: the request `initialize` with id 1, sent to a server
that is not initialized. -/
theorem C3_initialize_witness :
    (Json.obj [("method", .str "initialize"), ("id", .num 1)]).lookup "method"
      = some (.str "initialize") ∧
    (Json.obj [("method", .str "initialize"), ("id", .num 1)]).lookup "id" = some (.num 1) ∧
    ∃ result_body response,
      make_response (sample_libraries "") result_body = .ok response ∧
      (handle_message (sample_libraries "")
        (.obj [("method", .str "initialize"), ("id", .num 1)]) fresh_state).result
        = .ok (some response) ∧
      result_body.lookup "id" = some (.num 1) ∧
      result_body.path ["result", "capabilities", "textDocumentSync", "change"]
        = some (.num 1) ∧
      (handle_message (sample_libraries "")
        (.obj [("method", .str "initialize"), ("id", .num 1)])
        fresh_state).appstate.workspace.is_initialized = true ∧
      (handle_message (sample_libraries "")
        (.obj [("method", .str "initialize"), ("id", .num 1)])
        fresh_state).appstate.workspace.documents = fresh_state.workspace.documents :=
  ⟨rfl, rfl, C3_initialize (sample_libraries "") _ fresh_state (.num 1) rfl rfl⟩

/-- C4: an initialized server answers a method `M` it does not know with
`make_response` of a body whose only member is `error`, whose `error.code` is
-32601 and whose `error.message` is `Method 'M' not supported.`, and its state
stays as it was. -/
theorem C4_unknown_method_initialized (lib : Libraries) (body : Json) (st : AppState) (M : String)
    (hm : body.lookup "method" = some (.str M))
    (h1 : M ≠ "initialize") (h2 : M ≠ "initialized")
    (h3 : M ≠ "textDocument/didOpen") (h4 : M ≠ "textDocument/didChange")
    (hinit : st.workspace.is_initialized = true) :
    ∃ (result_body : Json) (response : String),
      result_body = .obj [("error", .obj [("code", .num (-32601)),
        ("message", .str ("Method '" ++ M ++ "' not supported."))])] ∧
      result_body.path ["error", "code"] = some (.num (-32601)) ∧
      result_body.path ["error", "message"]
        = some (.str ("Method '" ++ M ++ "' not supported.")) ∧
      make_response lib result_body = .ok response ∧
      handle_message lib body st = { result := .ok (some response), appstate := st } := by
  refine ⟨_, _, rfl, rfl, rfl, make_response_obj lib _, ?_⟩
  simp only [handle_message, Json.subscript_of_lookup _ _ _ hm,
    Json.count_of_lookup _ _ _ hm]
  simp [Json.eq_str, h1, h2, h3, h4, hinit, Json.get_string, error_body, make_response_obj,
    bind, Except.bind, pure, Except.pure]

/-- C4 at a concrete input: the method `foo/bar` after initialization is
answered with the code -32601 and the message
`Method 'foo/bar' not supported.`. -/
theorem C4_unknown_method_initialized_witness :
    ready_state.workspace.is_initialized = true ∧
    ∃ (result_body : Json) (response : String),
      result_body = .obj [("error", .obj [("code", .num (-32601)),
        ("message", .str "Method 'foo/bar' not supported.")])] ∧
      result_body.path ["error", "code"] = some (.num (-32601)) ∧
      result_body.path ["error", "message"]
        = some (.str "Method 'foo/bar' not supported.") ∧
      make_response (sample_libraries "") result_body = .ok response ∧
      handle_message (sample_libraries "") (.obj [("method", .str "foo/bar")]) ready_state
        = { result := .ok (some response), appstate := ready_state } :=
  ⟨rfl, C4_unknown_method_initialized (sample_libraries "") (.obj [("method", .str "foo/bar")])
    ready_state "foo/bar" rfl (by decide) (by decide) (by decide) (by decide) rfl⟩

/-- C5: a server that is not initialized answers a method it does not know with
`make_response` of a body whose only member is `error`, whose `error.code` is
-32002 and whose `error.message` is `Server not yet initialized.`, and its state
(flag and documents) stays as it was. -/
theorem C5_unknown_method_uninitialized (lib : Libraries) (body : Json) (st : AppState)
    (M : String)
    (hm : body.lookup "method" = some (.str M))
    (h1 : M ≠ "initialize") (h2 : M ≠ "initialized")
    (h3 : M ≠ "textDocument/didOpen") (h4 : M ≠ "textDocument/didChange")
    (hinit : st.workspace.is_initialized = false) :
    ∃ (result_body : Json) (response : String),
      result_body = .obj [("error", .obj [("code", .num (-32002)),
        ("message", .str "Server not yet initialized.")])] ∧
      result_body.path ["error", "code"] = some (.num (-32002)) ∧
      result_body.path ["error", "message"] = some (.str "Server not yet initialized.") ∧
      make_response lib result_body = .ok response ∧
      handle_message lib body st = { result := .ok (some response), appstate := st } := by
  refine ⟨_, _, rfl, rfl, rfl, make_response_obj lib _, ?_⟩
  simp only [handle_message, Json.subscript_of_lookup _ _ _ hm]
  simp [Json.eq_str, h1, h2, h3, h4, hinit, error_body, make_response_obj, Except.map]

/-- C5 at a concrete input: the method `foo/bar` before initialization is
answered with the code -32002 and the message `Server not yet initialized.`. -/
theorem C5_unknown_method_uninitialized_witness :
    fresh_state.workspace.is_initialized = false ∧
    ∃ (result_body : Json) (response : String),
      result_body = .obj [("error", .obj [("code", .num (-32002)),
        ("message", .str "Server not yet initialized.")])] ∧
      result_body.path ["error", "code"] = some (.num (-32002)) ∧
      result_body.path ["error", "message"] = some (.str "Server not yet initialized.") ∧
      make_response (sample_libraries "") result_body = .ok response ∧
      handle_message (sample_libraries "") (.obj [("method", .str "foo/bar")]) fresh_state
        = { result := .ok (some response), appstate := fresh_state } :=
  ⟨rfl, C5_unknown_method_uninitialized (sample_libraries "") (.obj [("method", .str "foo/bar")])
    fresh_state "foo/bar" rfl (by decide) (by decide) (by decide) (by decide) rfl⟩

/-! ## Integers and library strings -/

theorem to_int_of_range (z : Int) (h1 : -2 ^ 31 ≤ z) (h2 : z < 2 ^ 31) : to_int z = z := by
  unfold to_int
  norm_num at h1 h2 ⊢
  omega

theorem to_size_t_of_range (z : Int) (h1 : 0 ≤ z) (h2 : z < 2 ^ 64) :
    to_size_t z = z.toNat := by
  unfold to_size_t
  norm_num at h2 ⊢
  rw [Int.emod_eq_of_lt h1 h2]

/-- Converting to `std::size_t` first does not change what the conversion to
`int` gives. -/
theorem to_int_to_size_t (z : Int) : to_int (to_size_t z) = to_int z := by
  unfold to_int to_size_t
  norm_num
  omega

theorem stoi_value_range (negative : Bool) (digits : List Char) (n : Int)
    (h : stoi_value negative digits = .ok n) : -2 ^ 31 ≤ n ∧ n < 2 ^ 31 := by
  unfold stoi_value at h
  by_cases he : digits.isEmpty = true
  · simp [he] at h
  · by_cases hr : signed_value negative digits < - 2 ^ 31 ∨
        2 ^ 31 - 1 < signed_value negative digits
    · rw [if_neg he, if_pos hr] at h
      simp at h
    · rw [if_neg he, if_neg hr] at h
      simp only [Except.ok.injEq] at h
      rw [← h]
      norm_num at hr ⊢
      omega

/-- What `std::stoi` returns fits an `int`. -/
theorem stoi_range (text : String) (n : Int) (h : stoi text = .ok n) :
    -2 ^ 31 ≤ n ∧ n < 2 ^ 31 :=
  stoi_value_range _ _ n h

theorem starts_with_iff (needle text : List Char) :
    starts_with needle text = true ↔ needle <+: text := by
  induction needle generalizing text with
  | nil => simp [starts_with]
  | cons n ns ih =>
    cases text with
    | nil => simp [starts_with]
    | cons c cs => simp [starts_with, ih, List.cons_prefix_cons]

/-- The scan of `find` stops at the first occurrence. -/
theorem find_from_first_occurrence (needle text : List Char) (pos i : Nat)
    (h : first_occurrence needle text i) : find_from needle text pos = some (pos + i) := by
  induction text generalizing pos i with
  | nil =>
    obtain ⟨hocc, hmin⟩ := h
    have hn : needle = [] := by simpa [occurs_at] using hocc
    subst hn
    have hi : i = 0 := by
      by_contra hne
      exact hmin 0 (Nat.pos_of_ne_zero hne) (by simp [occurs_at])
    simp [find_from, starts_with, hi]
  | cons c cs ih =>
    obtain ⟨hocc, hmin⟩ := h
    by_cases hs : starts_with needle (c :: cs) = true
    · have hi : i = 0 := by
        by_contra hne
        exact hmin 0 (Nat.pos_of_ne_zero hne) (by simpa [occurs_at] using (starts_with_iff _ _).1 hs)
      simp [find_from, hs, hi]
    · cases i with
      | zero =>
        exact absurd ((starts_with_iff _ _).2 (by simpa [occurs_at] using hocc)) hs
      | succ k =>
        have hk : first_occurrence needle cs k := by
          refine ⟨by simpa [occurs_at] using hocc, fun j hj hoj => ?_⟩
          exact hmin (j + 1) (by omega) (by simpa [occurs_at] using hoj)
        have hs' : starts_with needle (c :: cs) = false := by simpa using hs
        simp only [find_from, hs', Bool.false_eq_true, if_false]
        rw [ih (pos + 1) k hk, Nat.add_assoc, Nat.add_comm 1 k]

/-- Where `needle` occurs, there is room for it. -/
theorem occurs_at_length (needle text : List Char) (i : Nat) (h : first_occurrence needle text i) :
    i + needle.length ≤ text.length := by
  obtain ⟨hocc, hmin⟩ := h
  unfold occurs_at at hocc
  have hlen := hocc.length_le
  simp only [List.length_drop] at hlen
  by_cases hn : needle = []
  · subst hn
    have hi : i = 0 := by
      by_contra hne
      exact hmin 0 (Nat.pos_of_ne_zero hne) (by simp [occurs_at])
    simp [hi]
  · have : 0 < needle.length := List.length_pos.2 hn
    omega

/-- The call `find` returns the offset of the first occurrence. -/
theorem find_first_occurrence (text needle : String) (i : Nat)
    (h : first_occurrence needle.data text.data i) : find text needle = i := by
  simp [find, find_from_first_occurrence needle.data text.data 0 i h]

/-! ## The two patterns on lines of the expected form -/

/-- A greedy run fails when the rest of the pattern fails after every run. -/
theorem star_greedy_none (a : Atom) (k : List Char → Option Match) (input : List Char)
    (h : ∀ r1 r2, input = r1 ++ r2 → (∀ c ∈ r1, a.accepts c = true) → k r2 = none) :
    star_greedy a k input = none := by
  induction input with
  | nil => simp [star_greedy, h [] [] rfl (by simp)]
  | cons c cs ih =>
    have hk : k (c :: cs) = none := h [] (c :: cs) rfl (by simp)
    by_cases hc : a.accepts c = true
    · have hcs : star_greedy a k cs = none := by
        apply ih
        intro r1 r2 he hr
        exact h (c :: r1) r2 (by simp [he]) (by
          intro x hx
          rcases List.mem_cons.1 hx with rfl | hx
          · exact hc
          · exact hr x hx)
      simp [star_greedy, hc, hcs, hk]
    · simp [star_greedy, hc, hk]

/-- A greedy run takes the longest run after which the rest of the pattern
matches. -/
theorem star_greedy_longest (a : Atom) (k : List Char → Option Match)
    (run rest : List Char) (m : Match)
    (hrun : ∀ c ∈ run, a.accepts c = true)
    (hk : k rest = some m)
    (hlonger : ∀ r1 r2, rest = r1 ++ r2 → r1 ≠ [] → (∀ c ∈ r1, a.accepts c = true) →
      k r2 = none) :
    star_greedy a k (run ++ rest) = some (run, m) := by
  induction run with
  | nil =>
    cases rest with
    | nil => simp [star_greedy, hk]
    | cons c cs =>
      by_cases hc : a.accepts c = true
      · have hcs : star_greedy a k cs = none := by
          apply star_greedy_none
          intro r1 r2 he hr
          exact hlonger (c :: r1) r2 (by simp [he]) (by simp) (by
            intro x hx
            rcases List.mem_cons.1 hx with rfl | hx
            · exact hc
            · exact hr x hx)
        simp [star_greedy, hc, hcs, hk]
      · simp [star_greedy, hc, hk]
  | cons c run ih =>
    have hc : a.accepts c = true := hrun c (List.mem_cons_self _ _)
    have ih' := ih (fun x hx => hrun x (List.mem_cons_of_mem _ hx))
    simp [star_greedy, hc, ih']

theorem starts_with_append (text rest : List Char) : starts_with text (text ++ rest) = true :=
  (starts_with_iff _ _).2 (List.prefix_append _ _)

/-- Literal text at the head of the input is passed over. -/
theorem match_here_lit (text : List Char) (pattern : List Piece) (rest : List Char) :
    match_here (.lit text :: pattern) (text ++ rest)
      = (match_here pattern rest).map (Match.prepend text) := by
  simp [match_here, starts_with_append]

/-- Input that does not begin with the literal text is rejected. -/
theorem match_here_lit_none (text : List Char) (pattern : List Piece) (input : List Char)
    (h : ¬ text <+: input) : match_here (.lit text :: pattern) input = none := by
  have : starts_with text input = false := by
    simpa using fun hs => h ((starts_with_iff _ _).1 hs)
  simp [match_here, this]

/-- A group is a greedy run followed by the rest of the pattern. -/
theorem match_here_cap (a : Atom) (pattern : List Piece) (input : List Char) :
    match_here (.cap a :: pattern) input
      = (star_greedy a (match_here pattern) input).map (fun r => Match.capture r.1 r.2) := by
  rw [match_here]

/-- The last group `(.*)` takes the text up to its end when the text has no line
terminator. -/
theorem match_here_last_group (text : List Char)
    (htext : ∀ c ∈ text, Atom.any.accepts c = true) :
    match_here [.cap .any] text = some { whole := text, groups := [text] } := by
  have h := star_greedy_longest .any (match_here []) text [] { whole := [], groups := [] }
    htext (by simp [match_here]) (by
      intro r1 r2 he hne
      simp at he
      exact absurd he.1 hne)
  simp only [List.append_nil] at h
  rw [match_here_cap, h]
  simp [Match.capture]


/-- The pattern `(.*): 0:(\d*): (.*)` on a line `SEVERITY: 0:NUMBER: TEXT`
without line terminator, in which `: 0:` does not occur again after the severity
token: the groups are the three parts. -/
theorem regex_search_diagnostic_form (severity number text : List Char)
    (hsev : ∀ c ∈ severity, Atom.any.accepts c = true)
    (hnum : ∀ c ∈ number, Atom.digit.accepts c = true)
    (htext : ∀ c ∈ text, Atom.any.accepts c = true)
    (honce : ∀ j, 0 < j →
      ¬ occurs_at [':', ' ', '0', ':'] ([':', ' ', '0', ':'] ++ (number ++ ([':', ' '] ++ text))) j) :
    regex_search re_diagnostic
        (String.mk (severity ++ ([':', ' ', '0', ':'] ++ (number ++ ([':', ' '] ++ text)))))
      = [String.mk (severity ++ ([':', ' ', '0', ':'] ++ (number ++ ([':', ' '] ++ text)))),
         String.mk severity, String.mk number, String.mk text] := by
  -- the tail of the pattern after the number
  have h2 : match_here [.lit [':', ' '], .cap .any] ([':', ' '] ++ text)
      = some { whole := [':', ' '] ++ text, groups := [text] } := by
    rw [match_here_lit, match_here_last_group text htext]
    rfl
  -- the number: the run of digits cannot go on into `: `
  have h3 : match_here [.cap .digit, .lit [':', ' '], .cap .any] (number ++ ([':', ' '] ++ text))
      = some { whole := number ++ ([':', ' '] ++ text), groups := [number, text] } := by
    have h := star_greedy_longest .digit (match_here [.lit [':', ' '], .cap .any]) number
      ([':', ' '] ++ text) _ hnum h2 (by
        intro r1 r2 he hne hr
        cases r1 with
        | nil => exact absurd rfl hne
        | cons c cs =>
          simp only [List.cons_append, List.cons.injEq] at he
          have := hr c (List.mem_cons_self _ _)
          rw [← he.1] at this
          exact absurd this (by decide))
    rw [match_here_cap, h]
    rfl
  have h4 : match_here [.lit [':', ' ', '0', ':'], .cap .digit, .lit [':', ' '], .cap .any]
      ([':', ' ', '0', ':'] ++ (number ++ ([':', ' '] ++ text)))
      = some { whole := [':', ' ', '0', ':'] ++ (number ++ ([':', ' '] ++ text)),
               groups := [number, text] } := by
    rw [match_here_lit, h3]
    rfl
  -- the severity: a longer first group leaves a text that does not begin with `: 0:`
  have h5 := star_greedy_longest .any
    (match_here [.lit [':', ' ', '0', ':'], .cap .digit, .lit [':', ' '], .cap .any]) severity
    ([':', ' ', '0', ':'] ++ (number ++ ([':', ' '] ++ text))) _ hsev h4 (by
      intro r1 r2 he hne _
      apply match_here_lit_none
      intro hp
      apply honce r1.length (List.length_pos.2 hne)
      unfold occurs_at
      rw [he, List.drop_left]
      exact hp)
  have h6 : match_here re_diagnostic
      (severity ++ ([':', ' ', '0', ':'] ++ (number ++ ([':', ' '] ++ text))))
      = some { whole := severity ++ ([':', ' ', '0', ':'] ++ (number ++ ([':', ' '] ++ text))),
               groups := [severity, number, text] } := by
    rw [re_diagnostic, match_here_cap, h5]
    rfl
  have h7 : search_from re_diagnostic
      (severity ++ ([':', ' ', '0', ':'] ++ (number ++ ([':', ' '] ++ text))))
      = some { whole := severity ++ ([':', ' ', '0', ':'] ++ (number ++ ([':', ' '] ++ text))),
               groups := [severity, number, text] } := by
    cases hin : severity ++ ([':', ' ', '0', ':'] ++ (number ++ ([':', ' '] ++ text))) with
    | nil => simp at hin
    | cons c cs =>
      rw [hin] at h6
      simp only [search_from, h6]
  simp only [regex_search, h7, List.map_cons, List.map_nil]

/-- The pattern `'(.*)' : (.*)` on a message `'IDENTIFIER' : REST` without line
terminator, in which `' : ` does not occur again after the identifier: the
groups are the two parts. -/
theorem regex_search_identifier_form (identifier rest : List Char)
    (hid : ∀ c ∈ identifier, Atom.any.accepts c = true)
    (hrest : ∀ c ∈ rest, Atom.any.accepts c = true)
    (honce : ∀ j, 0 < j →
      ¬ occurs_at ['\'', ' ', ':', ' '] (['\'', ' ', ':', ' '] ++ rest) j) :
    regex_search re_identifier
        (String.mk (['\''] ++ (identifier ++ (['\'', ' ', ':', ' '] ++ rest))))
      = [String.mk (['\''] ++ (identifier ++ (['\'', ' ', ':', ' '] ++ rest))),
         String.mk identifier, String.mk rest] := by
  have h2 : match_here [.lit ['\'', ' ', ':', ' '], .cap .any] (['\'', ' ', ':', ' '] ++ rest)
      = some { whole := ['\'', ' ', ':', ' '] ++ rest, groups := [rest] } := by
    rw [match_here_lit, match_here_last_group rest hrest]
    rfl
  have h3 := star_greedy_longest .any (match_here [.lit ['\'', ' ', ':', ' '], .cap .any])
    identifier (['\'', ' ', ':', ' '] ++ rest) _ hid h2 (by
      intro r1 r2 he hne _
      apply match_here_lit_none
      intro hp
      apply honce r1.length (List.length_pos.2 hne)
      unfold occurs_at
      rw [he, List.drop_left]
      exact hp)
  have h4 : match_here re_identifier (['\''] ++ (identifier ++ (['\'', ' ', ':', ' '] ++ rest)))
      = some { whole := ['\''] ++ (identifier ++ (['\'', ' ', ':', ' '] ++ rest)),
               groups := [identifier, rest] } := by
    rw [re_identifier, match_here_lit, match_here_cap, h3]
    rfl
  have h5 : search_from re_identifier
      (['\''] ++ (identifier ++ (['\'', ' ', ':', ' '] ++ rest)))
      = some { whole := ['\''] ++ (identifier ++ (['\'', ' ', ':', ' '] ++ rest)),
               groups := [identifier, rest] } := by
    rw [List.singleton_append] at h4 ⊢
    simp only [search_from, h4]
  simp only [regex_search, h5, List.map_cons, List.map_nil]

/-! ## The translation of a log line -/

theorem make_diagnostic_eq (line_no start_char end_char severity_no : Int) (message : String) :
    make_diagnostic line_no start_char end_char severity_no message
      = .ok (diagnostic_json line_no start_char end_char severity_no message) := by
  rfl

/-- A `push_back` adds the diagnostic at the end of those pushed so far. -/
theorem push_back_diagnostics_value (ds : List Json) (d : Json) :
    (diagnostics_value ds).push_back d = .ok (diagnostics_value (ds ++ [d])) := by
  cases ds with
  | nil => rfl
  | cons x xs => rfl

/-- The diagnostic of a log line whose number is that of a line of the source:
the range `char_range` finds in that line, the number of the severity token and
the trimmed message. -/
theorem line_diagnostic_eq (content_lines : List String)
    (whole severity number text : String) (n : Int) (source_line : String)
    (hn : stoi number = .ok n) (h1 : 1 ≤ n)
    (hline : content_lines.get? (n - 1).toNat = some source_line) :
    line_diagnostic content_lines [whole, severity, number, text]
      = .ok (diagnostic_json (n - 1)
          (char_range (trim text " ") source_line).1 (char_range (trim text " ") source_line).2
          (severity_no severity) (trim text " ")) := by
  obtain ⟨hlo, hhi⟩ := stoi_range number n hn
  have hint : to_int (n - 1) = n - 1 :=
    to_int_of_range (n - 1) (by norm_num at hlo ⊢; omega) (by norm_num at hhi ⊢; omega)
  have hsz : to_size_t (n - 1) = (n - 1).toNat :=
    to_size_t_of_range (n - 1) (by omega) (by norm_num at hhi ⊢; omega)
  have hline' := hline
  simp only [List.get?_eq_getElem?, Int.pred_toNat] at hline'
  simp [line_diagnostic, List.getD, hn, bind, Except.bind, hint, vector_at, hsz, hline',
    make_diagnostic_eq]

/-- One turn of the loop on a matching line whose number is that of a line of
the source adds the diagnostic of the line. -/
theorem diagnostics_step_matching (content_lines : List String) (ds : List Json)
    (line whole severity number text : String) (n : Int) (source_line : String)
    (hm : regex_search re_diagnostic line = [whole, severity, number, text])
    (hn : stoi number = .ok n) (h1 : 1 ≤ n)
    (hline : content_lines.get? (n - 1).toNat = some source_line) :
    diagnostics_step content_lines (diagnostics_value ds) line
      = .ok (diagnostics_value (ds ++ [diagnostic_json (n - 1)
          (char_range (trim text " ") source_line).1 (char_range (trim text " ") source_line).2
          (severity_no severity) (trim text " ")])) := by
  simp [diagnostics_step, hm, line_diagnostic_eq content_lines whole severity number text n
    source_line hn h1 hline, bind, Except.bind, push_back_diagnostics_value]

/-- When the message names an identifier that occurs in the source line, the
range is that of its first occurrence. -/
theorem char_range_identifier (message source_line whole identifier rest : String) (i : Nat)
    (hid : regex_search re_identifier message = [whole, identifier, rest])
    (hocc : first_occurrence identifier.data source_line.data i)
    (hlen : source_line.length < 2 ^ 31) :
    char_range message source_line = ((i : Int), (i : Int) + identifier.length - 1) := by
  have hroom := occurs_at_length identifier.data source_line.data i hocc
  have hfind := find_first_occurrence source_line identifier i hocc
  have hl1 : identifier.length = identifier.data.length := rfl
  have hl2 : source_line.length = source_line.data.length := rfl
  have hidl : to_int (identifier.length : Int) = identifier.length :=
    to_int_of_range _ (by norm_num; omega) (by norm_num at hlen ⊢; omega)
  simp only [char_range, hid, List.length_cons, List.length_nil, List.getD, List.get?,
    Option.getD, hfind, hidl, to_int_to_size_t, if_true, Nat.reduceAdd]
  rw [to_int_of_range (i : Int) (by norm_num; omega) (by norm_num at hlen ⊢; omega),
    to_int_of_range ((i : Int) + identifier.length - 1) (by norm_num; omega)
      (by norm_num at hlen ⊢; omega)]

/-- A matching line whose number is that of a line of the source has a
diagnostic. -/
theorem line_diagnostic_of_refers (content_lines : List String) (line : String)
    (hm : is_diagnostic_line line = true)
    (hr : refers_to_source_line content_lines line = true) :
    ∃ d, line_diagnostic content_lines (regex_search re_diagnostic line) = .ok d := by
  unfold is_diagnostic_line at hm
  unfold refers_to_source_line at hr
  match hs : regex_search re_diagnostic line, hm with
  | [whole, severity, number, text], _ =>
    rw [hs] at hr
    simp only [List.getD, List.get?, Option.getD] at hr
    cases hn : stoi number with
    | error e => rw [hn] at hr; simp at hr
    | ok n =>
      rw [hn] at hr
      simp only [decide_eq_true_eq] at hr
      have hlt : (n - 1).toNat < content_lines.length := by omega
      exact ⟨_, line_diagnostic_eq content_lines whole severity number text n
        (content_lines.get ⟨(n - 1).toNat, hlt⟩) hn hr.1 (List.get?_eq_get hlt)⟩

/-- The loop adds one diagnostic for each matching line, in the order of the
lines, when every matching line has the number of a line of the source. -/
theorem diagnostics_loop_spec (content_lines : List String) (lines : List String)
    (ds : List Json)
    (h : ∀ line ∈ lines, is_diagnostic_line line = true →
      refers_to_source_line content_lines line = true) :
    ∃ added : List Json,
      diagnostics_loop content_lines (diagnostics_value ds) lines
        = .ok (diagnostics_value (ds ++ added)) ∧
      List.Forall₂
        (fun line d => line_diagnostic content_lines (regex_search re_diagnostic line) = .ok d)
        (lines.filter is_diagnostic_line) added := by
  induction lines generalizing ds with
  | nil => exact ⟨[], by simp [diagnostics_loop], by simp⟩
  | cons line rest ih =>
    have hrest : ∀ l ∈ rest, is_diagnostic_line l = true →
        refers_to_source_line content_lines l = true :=
      fun l hl => h l (List.mem_cons_of_mem _ hl)
    by_cases hm : is_diagnostic_line line = true
    · obtain ⟨d, hd⟩ := line_diagnostic_of_refers content_lines line hm
        (h line (List.mem_cons_self _ _) hm)
      obtain ⟨added, hloop, hall⟩ := ih (ds ++ [d]) hrest
      refine ⟨d :: added, ?_, ?_⟩
      · have hlen : (regex_search re_diagnostic line).length = 4 := by
          simpa [is_diagnostic_line] using hm
        simp only [diagnostics_loop, diagnostics_step, hlen, if_true, hd, bind, Except.bind,
          push_back_diagnostics_value, hloop]
        simp
      · simp only [List.filter_cons, hm, if_true]
        exact List.Forall₂.cons hd hall
    · obtain ⟨added, hloop, hall⟩ := ih ds hrest
      refine ⟨added, ?_, ?_⟩
      · have hlen : ¬ (regex_search re_diagnostic line).length = 4 := by
          simpa [is_diagnostic_line] using hm
        simp only [diagnostics_loop, diagnostics_step, hlen, if_false, bind, Except.bind, hloop]
      · simp only [List.filter_cons, hm]
        simpa using hall

/-! ## The translator: claims C7 and C9 -/

/-- For a log line in which the pattern `(.*): 0:(\d*): (.*)` captures the
severity `severity`, the number `number` and the message `text`, and in whose
trimmed message the pattern `'(.*)' : (.*)` captures `identifier`: when
`std::stoi` reads `number` as `n`, line `n - 1` of the source exists, is
shorter than 2^31 characters and has the first occurrence of `identifier` at
offset `i`, the diagnostic added for the line has start `(n - 1, i)`, end
`(n - 1, i + length identifier - 1)`, the number of the severity and the
trimmed message. -/
theorem identifier_range_of_captures (content : String) (ds : List Json)
    (line whole severity number text whole_id identifier rest : String)
    (n : Int) (source_line : String) (i : Nat)
    (hm : regex_search re_diagnostic line = [whole, severity, number, text])
    (hid : regex_search re_identifier (trim text " ") = [whole_id, identifier, rest])
    (hn : stoi number = .ok n) (h1 : 1 ≤ n)
    (hline : (split_string content "\n").get? (n - 1).toNat = some source_line)
    (hocc : first_occurrence identifier.data source_line.data i)
    (hlen : source_line.length < 2 ^ 31) :
    diagnostics_step (split_string content "\n") (diagnostics_value ds) line
      = .ok (diagnostics_value (ds ++ [diagnostic_json (n - 1) i (i + identifier.length - 1)
          (severity_no severity) (trim text " ")])) := by
  rw [diagnostics_step_matching (split_string content "\n") ds line whole severity number text n
    source_line hm hn h1 hline,
    char_range_identifier (trim text " ") source_line whole_id identifier rest i hid hocc hlen]

/-- C7, the code at failing inputs: a matching log line whose number is that of
no line of the source is not skipped. The unchecked `content_lines[line_no]`
reads outside the vector, for a number past the end as for the number 0, and the
diagnostic of the first, valid line is lost with the rest. -/
theorem C7_line_outside_document_not_skipped :
    translate "ERROR: 0:9: 'x' : undeclared identifier" "void main() \x7b\x7d"
      = .error .vector_out_of_bounds ∧
    translate "ERROR: 0:0: syntax error" "void main() \x7b\x7d" = .error .vector_out_of_bounds ∧
    translate "WARNING: 0:1: unused\nERROR: 0:9: 'x' : undeclared identifier"
        "void main() \x7b\x7d"
      = .error .vector_out_of_bounds ∧
    translate "WARNING: 0:1: unused" "void main() \x7b\x7d"
      = .ok (.arr [diagnostic_json 0 0 14 2 "unused"]) := by
  refine ⟨rfl, rfl, rfl, rfl⟩

/-- C9 as stated fails at these inputs. For a log without a matching line the
translation returns the JSON null value and not an empty sequence. And when the
only matching line of the log has the number 7 and the source two lines, no line
of the log matches and refers to a line of the source, so that the claim has the
empty sequence, while the code reads `content_lines[6]` and returns no sequence
at all. -/
theorem C9_counterexample_null_and_line_outside_document :
    translate "Compilation finished" "void main() \x7b\x7d" = .ok .null ∧
    Json.null ≠ Json.arr [] ∧
    (split_string "noise\nERROR: 0:7: 'y' : undeclared identifier" "\n").filter
        (fun line => is_diagnostic_line line &&
          refers_to_source_line (split_string "int a;\nint b;" "\n") line) = [] ∧
    ¬ ∃ diagnostics,
        translate "noise\nERROR: 0:7: 'y' : undeclared identifier" "int a;\nint b;"
          = .ok diagnostics := by
  refine ⟨rfl, by simp, rfl, ?_⟩
  rintro ⟨diagnostics, h⟩
  have hv : translate "noise\nERROR: 0:7: 'y' : undeclared identifier" "int a;\nint b;"
      = .error .vector_out_of_bounds := rfl
  rw [hv] at h
  cases h

/-- C9, amended: when every matching line of the log has a number `std::stoi`
reads and that is the number of a line of the source, the translation returns:
its value is null when no diagnostic was pushed and the array of the diagnostics
otherwise, `handle_message` publishes the array in both cases, and the
diagnostics are exactly one for each matching line, in the order of the lines,
and none for the other lines; a log without a matching line gives none. -/
theorem C9_one_diagnostic_per_matching_line (debug_log content : String)
    (h : ∀ line ∈ split_string debug_log "\n", is_diagnostic_line line = true →
      refers_to_source_line (split_string content "\n") line = true) :
    ∃ ds : List Json,
      translate debug_log content = .ok (diagnostics_value ds) ∧
      List.Forall₂
        (fun line d =>
          line_diagnostic (split_string content "\n") (regex_search re_diagnostic line) = .ok d)
        ((split_string debug_log "\n").filter is_diagnostic_line) ds ∧
      (if (diagnostics_value ds).empty then Json.arr [] else diagnostics_value ds) = .arr ds ∧
      ((split_string debug_log "\n").filter is_diagnostic_line = [] → ds = []) := by
  obtain ⟨ds, hloop, hall⟩ :=
    diagnostics_loop_spec (split_string content "\n") (split_string debug_log "\n") [] h
  refine ⟨ds, by simpa [translate] using hloop, by simpa using hall, ?_, ?_⟩
  · cases ds with
    | nil => rfl
    | cons d rest => rfl
  · intro hnone
    rw [hnone] at hall
    cases hall
    rfl

/-- C9 at a concrete input: a log of three lines, the second of which does not
match, for a source of five lines. -/
theorem C9_one_diagnostic_per_matching_line_witness :
    (∀ line ∈ split_string "ERROR: 0:5: 'foo' : undeclared identifier\nnoise\nWARNING: 0:1: unused"
        "\n",
      is_diagnostic_line line = true →
      refers_to_source_line (split_string "int a;\n\n\n\n  foo = 1;" "\n") line = true) ∧
    (split_string "ERROR: 0:5: 'foo' : undeclared identifier\nnoise\nWARNING: 0:1: unused"
        "\n").filter is_diagnostic_line
      = ["ERROR: 0:5: 'foo' : undeclared identifier", "WARNING: 0:1: unused"] ∧
    translate "ERROR: 0:5: 'foo' : undeclared identifier\nnoise\nWARNING: 0:1: unused"
        "int a;\n\n\n\n  foo = 1;"
      = .ok (.arr [diagnostic_json 4 2 4 1 "'foo' : undeclared identifier",
                   diagnostic_json 0 0 6 2 "unused"]) ∧
    ∃ ds : List Json,
      translate "ERROR: 0:5: 'foo' : undeclared identifier\nnoise\nWARNING: 0:1: unused"
          "int a;\n\n\n\n  foo = 1;"
        = .ok (diagnostics_value ds) ∧
      List.Forall₂
        (fun line d =>
          line_diagnostic (split_string "int a;\n\n\n\n  foo = 1;" "\n")
            (regex_search re_diagnostic line) = .ok d)
        ((split_string "ERROR: 0:5: 'foo' : undeclared identifier\nnoise\nWARNING: 0:1: unused"
          "\n").filter is_diagnostic_line) ds ∧
      (if (diagnostics_value ds).empty then Json.arr [] else diagnostics_value ds) = .arr ds ∧
      ((split_string "ERROR: 0:5: 'foo' : undeclared identifier\nnoise\nWARNING: 0:1: unused"
          "\n").filter is_diagnostic_line = [] → ds = []) :=
  ⟨by decide, rfl, rfl,
    C9_one_diagnostic_per_matching_line
      "ERROR: 0:5: 'foo' : undeclared identifier\nnoise\nWARNING: 0:1: unused"
      "int a;\n\n\n\n  foo = 1;" (by decide)⟩

/-- For a matching log line whose number `std::stoi` reads and that is the
number of a line of the source, a diagnostic is added whatever the severity
token, and its severity is 1 for the token `ERROR`, 2 for the token `WARNING`
and -1 for every other token. -/
theorem severity_of_valid_line (content_lines : List String) (ds : List Json)
    (line whole severity number text : String) (n : Int) (source_line : String)
    (hm : regex_search re_diagnostic line = [whole, severity, number, text])
    (hn : stoi number = .ok n) (h1 : 1 ≤ n)
    (hline : content_lines.get? (n - 1).toNat = some source_line) :
    ∃ d : Json,
      diagnostics_step content_lines (diagnostics_value ds) line
        = .ok (diagnostics_value (ds ++ [d])) ∧
      d.lookup "severity" = some (.num
        (if severity = "ERROR" then 1 else if severity = "WARNING" then 2 else -1)) :=
  ⟨_, diagnostics_step_matching content_lines ds line whole severity number text n source_line
    hm hn h1 hline, rfl⟩

/-! ## Document messages: claim C8 -/

/-- A document name whose extension is none of the nine makes `find_language`
raise. -/
theorem find_language_unknown (name : String)
    (h : extension name ∉
      [".vert", ".vs", ".tesc", ".tese", ".geom", ".gs", ".frag", ".fs", ".comp"]) :
    find_language name = .error (.invalid_argument "Unknown file extension!") := by
  simp only [List.mem_cons, List.mem_singleton, List.not_mem_nil, or_false, not_or] at h
  obtain ⟨h1, h2, h3, h4, h5, h6, h7, h8, h9⟩ := h
  simp [find_language, h1, h2, h3, h4, h5, h6, h7, h8, h9]

/-- Validation of a document whose kind `find_language` does not know raises. -/
theorem publish_diagnostics_unknown (lib : Libraries) (uri text : String)
    (h : extension uri ∉
      [".vert", ".vs", ".tesc", ".tese", ".geom", ".gs", ".frag", ".fs", ".comp"]) :
    publish_diagnostics lib uri text = .error (.invalid_argument "Unknown file extension!") := by
  simp [publish_diagnostics, get_diagnostics, find_language_unknown uri h, bind, Except.bind]

/-- A message with method `textDocument/didOpen` goes to the branch of lines 230
to 245, whatever the state. -/
theorem handle_message_did_open (lib : Libraries) (body : Json) (st : AppState)
    (hm : body.lookup "method" = some (.str "textDocument/didOpen")) :
    handle_message lib body st = did_open lib body st := by
  simp only [handle_message, Json.subscript_of_lookup _ _ _ hm]
  simp [Json.eq_str]

/-- A message with method `textDocument/didChange` goes to the branch of lines
247 to 263, whatever the state. -/
theorem handle_message_did_change (lib : Libraries) (body : Json) (st : AppState)
    (hm : body.lookup "method" = some (.str "textDocument/didChange")) :
    handle_message lib body st = did_change lib body st := by
  simp only [handle_message, Json.subscript_of_lookup _ _ _ hm]
  simp [Json.eq_str]

/-- The branch of `textDocument/didOpen` on a message that carries a name and a
text: the document is stored, then validated. -/
theorem did_open_eq (lib : Libraries) (body : Json) (st : AppState)
    (params document : Json) (uri text : String)
    (hparams : body.lookup "params" = some params)
    (hdoc : params.lookup "textDocument" = some document)
    (huri : document.lookup "uri" = some (.str uri))
    (htext : document.lookup "text" = some (.str text)) :
    did_open lib body st =
      { result := publish_diagnostics lib uri text,
        appstate := { st with workspace := st.workspace.add_document uri text } } := by
  simp [did_open, Json.member_of_lookup _ _ _ hparams, Json.member_of_lookup _ _ _ hdoc,
    Json.member_of_lookup _ _ _ huri, Json.member_of_lookup _ _ _ htext, Json.get_string,
    bind, Except.bind, pure, Except.pure]

/-- The branch of `textDocument/didChange` on a message that carries a name and
at least one content change with a text: the change is applied when the document
exists, then the text stored under the name is validated. -/
theorem did_change_eq (lib : Libraries) (body : Json) (st : AppState)
    (params document first : Json) (later : List Json) (uri change : String)
    (hparams : body.lookup "params" = some params)
    (hdoc : params.lookup "textDocument" = some document)
    (huri : document.lookup "uri" = some (.str uri))
    (hchanges : params.lookup "contentChanges" = some (.arr (first :: later)))
    (hchange : first.lookup "text" = some (.str change)) :
    did_change lib body st =
      { result := publish_diagnostics lib uri
          (((st.workspace.change_document uri change).2).documents_subscript uri).1,
        appstate := { st with workspace :=
          (((st.workspace.change_document uri change).2).documents_subscript uri).2 } } := by
  simp [did_change, Json.member_of_lookup _ _ _ hparams, Json.member_of_lookup _ _ _ hdoc,
    Json.member_of_lookup _ _ _ huri, Json.member_of_lookup _ _ _ hchanges,
    Json.member_of_lookup _ _ _ hchange, Json.element, Json.get_string,
    bind, Except.bind, pure, Except.pure]

/-- C8 as stated fails at this input: the document name `shader.txt` has an
extension `find_language` does not know, and `handle_message` returns no
response; the `std::invalid_argument` raised by `find_language` leaves it. -/
theorem C8_counterexample_unknown_extension :
    extension "shader.txt" = ".txt" ∧
    (handle_message (sample_libraries "") (did_open_message "shader.txt" "void main() \x7b\x7d")
        ready_state).result
      = .error (.invalid_argument "Unknown file extension!") ∧
    ¬ ∃ response,
        (handle_message (sample_libraries "")
          (did_open_message "shader.txt" "void main() \x7b\x7d") ready_state).result
          = .ok response := by
  have hv : (handle_message (sample_libraries "")
      (did_open_message "shader.txt" "void main() \x7b\x7d") ready_state).result
      = .error (.invalid_argument "Unknown file extension!") := rfl
  refine ⟨rfl, hv, ?_⟩
  rintro ⟨response, h⟩
  rw [hv] at h
  cases h

/-- C8, amended: for a document name whose extension is none of the nine that
`find_language` knows, `handle_message` returns no response to
`textDocument/didOpen` nor to `textDocument/didChange`: it ends with the
`std::invalid_argument` that `find_language` raises, in every state of the
server, and after `textDocument/didOpen` the document is in the workspace. -/
theorem C8_unknown_extension_raises (lib : Libraries) (body : Json) (st : AppState)
    (params document : Json) (uri : String)
    (hparams : body.lookup "params" = some params)
    (hdoc : params.lookup "textDocument" = some document)
    (huri : document.lookup "uri" = some (.str uri))
    (hext : extension uri ∉
      [".vert", ".vs", ".tesc", ".tese", ".geom", ".gs", ".frag", ".fs", ".comp"]) :
    (∀ text : String,
      body.lookup "method" = some (.str "textDocument/didOpen") →
      document.lookup "text" = some (.str text) →
      handle_message lib body st =
        { result := .error (.invalid_argument "Unknown file extension!"),
          appstate := { st with workspace := st.workspace.add_document uri text } }) ∧
    (∀ (first : Json) (later : List Json) (change : String),
      body.lookup "method" = some (.str "textDocument/didChange") →
      params.lookup "contentChanges" = some (.arr (first :: later)) →
      first.lookup "text" = some (.str change) →
      (handle_message lib body st).result
        = .error (.invalid_argument "Unknown file extension!")) := by
  constructor
  · intro text hm htext
    rw [handle_message_did_open lib body st hm,
      did_open_eq lib body st params document uri text hparams hdoc huri htext,
      publish_diagnostics_unknown lib uri text hext]
  · intro first later change hm hchanges hchange
    rw [handle_message_did_change lib body st hm,
      did_change_eq lib body st params document first later uri change hparams hdoc huri
        hchanges hchange,
      publish_diagnostics_unknown lib uri _ hext]

/-- C8 at concrete inputs: the messages `textDocument/didOpen` and
`textDocument/didChange` for the document `notes.md`. -/
theorem C8_unknown_extension_raises_witness :
    extension "notes.md" ∉
      [".vert", ".vs", ".tesc", ".tese", ".geom", ".gs", ".frag", ".fs", ".comp"] ∧
    handle_message (sample_libraries "") (did_open_message "notes.md" "# notes") ready_state =
      { result := .error (.invalid_argument "Unknown file extension!"),
        appstate := { ready_state with
          workspace := ready_state.workspace.add_document "notes.md" "# notes" } } ∧
    (handle_message (sample_libraries "") (did_change_message "notes.md" "# notes")
        ready_state).result
      = .error (.invalid_argument "Unknown file extension!") :=
  ⟨by decide,
    (C8_unknown_extension_raises (sample_libraries "") (did_open_message "notes.md" "# notes")
      ready_state (.obj [("textDocument", .obj [("uri", .str "notes.md"), ("text", .str "# notes")])])
      (.obj [("uri", .str "notes.md"), ("text", .str "# notes")]) "notes.md" rfl rfl rfl
      (by decide)).1 "# notes" rfl rfl,
    (C8_unknown_extension_raises (sample_libraries "") (did_change_message "notes.md" "# notes")
      ready_state
      (.obj [("textDocument", .obj [("uri", .str "notes.md")]),
             ("contentChanges", .arr [.obj [("text", .str "# notes")]])])
      (.obj [("uri", .str "notes.md")]) "notes.md" rfl rfl rfl (by decide)).2
      (.obj [("text", .str "# notes")]) [] "# notes" rfl rfl rfl⟩

/-! ## The flag: claims C15 and C16 -/

/-- The method `body["method"]` returns is `initialize` exactly for a message
with that method. -/
theorem eq_str_initialize_of_subscript (body method body' : Json)
    (h : body.subscript "method" = .ok (method, body')) :
    method.eq_str "initialize" = is_initialize_request body := by
  cases body with
  | null =>
    simp only [Json.subscript, Except.ok.injEq, Prod.mk.injEq] at h
    rw [← h.1]; rfl
  | obj members =>
    simp only [Json.subscript] at h
    cases hg : Json.assocGet "method" members with
    | some v =>
      rw [hg] at h
      simp only [Except.ok.injEq, Prod.mk.injEq] at h
      rw [← h.1]
      simp [is_initialize_request, Json.lookup, hg]
    | none =>
      rw [hg] at h
      simp only [Except.ok.injEq, Prod.mk.injEq] at h
      rw [← h.1]
      simp [is_initialize_request, Json.lookup, hg, Json.eq_str]
  | bool b => simp [Json.subscript] at h
  | num n => simp [Json.subscript] at h
  | str s => simp [Json.subscript] at h
  | arr elems => simp [Json.subscript] at h

/-- A body on which `body["method"]` raises has no method. -/
theorem is_initialize_request_of_subscript_error (body : Json) (e : Abort)
    (h : body.subscript "method" = .error e) : is_initialize_request body = false := by
  cases body <;> simp [Json.subscript] at h <;> try rfl
  rename_i members
  cases hg : Json.assocGet "method" members <;> simp [hg] at h

/-- The branch of `textDocument/didOpen` leaves the flag as it is. -/
theorem did_open_flag (lib : Libraries) (body : Json) (st : AppState) :
    (did_open lib body st).appstate.workspace.is_initialized = st.workspace.is_initialized := by
  unfold did_open
  simp only
  split <;> rfl

theorem Workspace.change_document_flag (w : Workspace) (key text : String) :
    (w.change_document key text).2.m_initialized = w.m_initialized := by
  unfold Workspace.change_document
  split <;> rfl

theorem Workspace.documents_subscript_flag (w : Workspace) (key : String) :
    (w.documents_subscript key).2.m_initialized = w.m_initialized := by
  unfold Workspace.documents_subscript
  split <;> rfl

/-- The branch of `textDocument/didChange` leaves the flag as it is. -/
theorem did_change_flag (lib : Libraries) (body : Json) (st : AppState) :
    (did_change lib body st).appstate.workspace.is_initialized
      = st.workspace.is_initialized := by
  unfold did_change
  simp only
  split
  · rfl
  · rename_i uri change _
    show ((st.workspace.change_document uri change).2.documents_subscript uri).2.m_initialized
      = st.workspace.m_initialized
    rw [Workspace.documents_subscript_flag, Workspace.change_document_flag]

/-- C16: whatever the message and the state, the flag after `handle_message` is
the flag before or true, and true exactly when it was true before or the message
has the method `initialize`. So an initialized server stays initialized, and
only a message with method `initialize` changes the flag. -/
theorem C16_initialized_is_monotone (lib : Libraries) (body : Json) (st : AppState) :
    (handle_message lib body st).appstate.workspace.is_initialized
        = (st.workspace.is_initialized || is_initialize_request body) ∧
    (st.workspace.is_initialized = true →
      (handle_message lib body st).appstate.workspace.is_initialized = true) ∧
    ((handle_message lib body st).appstate.workspace.is_initialized
        ≠ st.workspace.is_initialized →
      body.lookup "method" = some (.str "initialize")) := by
  have key : (handle_message lib body st).appstate.workspace.is_initialized
      = (st.workspace.is_initialized || is_initialize_request body) := by
    unfold handle_message
    cases hs : body.subscript "method" with
    | error e =>
      simp [is_initialize_request_of_subscript_error body e hs]
    | ok r =>
      obtain ⟨method, body'⟩ := r
      have hreq := eq_str_initialize_of_subscript body method body' hs
      simp only
      by_cases h0 : method.eq_str "initialized" = true
      · have : method.eq_str "initialize" = false := by
          cases method <;> simp [Json.eq_str] at h0 ⊢
          subst h0; decide
        rw [if_pos h0, ← hreq, this]; simp
      · rw [if_neg h0]
        by_cases h1 : method.eq_str "initialize" = true
        · rw [if_pos h1, ← hreq, h1]
          simp [Workspace.is_initialized, Workspace.set_initialized]
        · rw [if_neg h1]
          have hf : is_initialize_request body = false := by
            rw [← hreq]; simpa using h1
          rw [hf, Bool.or_false]
          by_cases h2 : method.eq_str "textDocument/didOpen" = true
          · rw [if_pos h2]; exact did_open_flag lib body' st
          · rw [if_neg h2]
            by_cases h3 : method.eq_str "textDocument/didChange" = true
            · rw [if_pos h3]; exact did_change_flag lib body' st
            · rw [if_neg h3]
              split
              · rfl
              · split <;> rfl
  refine ⟨key, ?_, ?_⟩
  · intro h
    rw [key, h, Bool.true_or]
  · intro hne
    rw [key] at hne
    cases hi : st.workspace.is_initialized with
    | true => rw [hi] at hne; simp at hne
    | false =>
      rw [hi, Bool.false_or] at hne
      have hreq : is_initialize_request body = true := by
        cases hr : is_initialize_request body with
        | true => rfl
        | false => rw [hr] at hne; simp at hne
      unfold is_initialize_request at hreq
      cases hl : body.lookup "method" with
      | none => rw [hl] at hreq; simp at hreq
      | some m =>
        rw [hl] at hreq
        cases m <;> simp [Json.eq_str] at hreq
        rw [hreq]

/-- C15: whatever the state, a message with method `initialized` gets no
response, and the state (flag and documents) stays as it was. -/
theorem C15_initialized_notification (lib : Libraries) (body : Json) (st : AppState)
    (hm : body.lookup "method" = some (.str "initialized")) :
    handle_message lib body st = { result := .ok none, appstate := st } := by
  simp only [handle_message, Json.subscript_of_lookup _ _ _ hm]
  simp [Json.eq_str]

/-- C15 at concrete inputs: the notification `initialized`, before and after
`initialize`. -/
theorem C15_initialized_notification_witness :
    (Json.obj [("method", .str "initialized"), ("params", .obj [])]).lookup "method"
      = some (.str "initialized") ∧
    handle_message (sample_libraries "")
        (.obj [("method", .str "initialized"), ("params", .obj [])]) fresh_state
      = { result := .ok none, appstate := fresh_state } ∧
    handle_message (sample_libraries "")
        (.obj [("method", .str "initialized"), ("params", .obj [])]) ready_state
      = { result := .ok none, appstate := ready_state } :=
  ⟨rfl,
    C15_initialized_notification (sample_libraries "")
      (.obj [("method", .str "initialized"), ("params", .obj [])]) fresh_state rfl,
    C15_initialized_notification (sample_libraries "")
      (.obj [("method", .str "initialized"), ("params", .obj [])]) ready_state rfl⟩

theorem Json.assocGet_assocSet_ne (key other : String) (v : Json)
    (members : List (String × Json)) (h : other ≠ key) :
    Json.assocGet other (Json.assocSet key v members) = Json.assocGet other members := by
  induction members with
  | nil => simp [Json.assocSet, Json.assocGet, Ne.symm h]
  | cons kv rest ih =>
    obtain ⟨k, w⟩ := kv
    by_cases hk : k = key
    · subst hk
      simp [Json.assocSet, Json.assocGet, Ne.symm h]
    · by_cases ho : k = other
      · subst ho
        simp [Json.assocSet, Json.assocGet, hk]
      · simp [Json.assocSet, Json.assocGet, hk, ho, ih]

/-! ## The envelope: claim C11 -/

/-- A value that is neither null nor an object cannot be given the member
`jsonrpc`: `make_response` ends in `type_error` 305. -/
theorem make_response_not_object (lib : Libraries) (r : Json)
    (hnull : r ≠ .null) (hobj : ∀ members, r ≠ .obj members) :
    make_response lib r = .error (.type_error 305) := by
  cases r with
  | null => exact absurd rfl hnull
  | obj members => exact absurd rfl (hobj members)
  | bool b => rfl
  | num n => rfl
  | str s => rfl
  | arr elems => rfl

/-- The digits read from the left: the value continues from `acc`. -/
theorem decimal_value_acc (digits : List Char) (acc : Nat) :
    decimal_value digits acc = acc * 10 ^ digits.length + decimal_value digits 0 := by
  induction digits generalizing acc with
  | nil => simp [decimal_value]
  | cons c cs ih =>
    simp only [decimal_value, List.length_cons]
    rw [ih (10 * acc + digit_value c), ih (10 * 0 + digit_value c)]
    ring

theorem digit_value_digitChar (d : Nat) (h : d < 10) : digit_value (Nat.digitChar d) = d := by
  interval_cases d <;> rfl

theorem isDigit_digitChar (d : Nat) (h : d < 10) : (Nat.digitChar d).isDigit = true := by
  interval_cases d <;> rfl

/-- The digits `Nat.toDigitsCore` puts in front of `ds` are those of `n`. -/
theorem decimal_value_toDigitsCore (fuel n : Nat) (ds : List Char) (h : n < fuel) :
    decimal_value (Nat.toDigitsCore 10 fuel n ds) 0
      = n * 10 ^ ds.length + decimal_value ds 0 := by
  induction fuel generalizing n ds with
  | zero => omega
  | succ fuel ih =>
    have hd : n % 10 < 10 := Nat.mod_lt _ (by decide)
    simp only [Nat.toDigitsCore]
    split
    · rename_i h0
      have hn : n % 10 = n := Nat.mod_eq_of_lt (by omega)
      simp only [decimal_value]
      rw [decimal_value_acc, digit_value_digitChar _ hd, hn]
      ring
    · rename_i h0
      rw [ih (n / 10) _ (by omega)]
      simp only [decimal_value, List.length_cons]
      rw [decimal_value_acc ds, digit_value_digitChar _ hd]
      have := Nat.div_add_mod n 10
      calc n / 10 * 10 ^ (ds.length + 1) + ((10 * 0 + n % 10) * 10 ^ ds.length + decimal_value ds 0)
          = (10 * (n / 10) + n % 10) * 10 ^ ds.length + decimal_value ds 0 := by ring
        _ = n * 10 ^ ds.length + decimal_value ds 0 := by rw [this]

theorem isDigit_toDigitsCore (fuel n : Nat) (ds : List Char)
    (h : ∀ c ∈ ds, c.isDigit = true) :
    ∀ c ∈ Nat.toDigitsCore 10 fuel n ds, c.isDigit = true := by
  induction fuel generalizing n ds with
  | zero => simpa [Nat.toDigitsCore] using h
  | succ fuel ih =>
    have hd : n % 10 < 10 := Nat.mod_lt _ (by decide)
    have hcons : ∀ c ∈ Nat.digitChar (n % 10) :: ds, c.isDigit = true := by
      intro c hc
      rcases List.mem_cons.1 hc with rfl | hc
      · exact isDigit_digitChar _ hd
      · exact h c hc
    simp only [Nat.toDigitsCore]
    split
    · exact hcons
    · exact ih _ _ hcons

/-- The text `std::to_string(n)` is the decimal numeral of `n`: digits only, and
read as a decimal number it gives `n` back. -/
theorem to_string_decimal (n : Nat) :
    (∀ c ∈ (toString n).data, c.isDigit = true) ∧ decimal_value (toString n).data 0 = n := by
  have hdata : (toString n).data = Nat.toDigitsCore 10 (n + 1) n [] := rfl
  rw [hdata]
  refine ⟨isDigit_toDigitsCore _ _ _ (by simp), ?_⟩
  rw [decimal_value_toDigitsCore (n + 1) n [] (by omega)]
  simp [decimal_value]

/-- C11: for every response object, `make_response` returns exactly the line
`Content-Length: N`, the line
`Content-Type: application/vscode-jsonrpc;charset=utf-8`, an empty line and the
body `B`, all lines ending in CR LF, where `B` is the serialisation of the
object with the member `jsonrpc` set to `2.0` and its other members as they
were, and `N` is the decimal numeral of the length of `B`. The same holds for
the null value, which becomes an object with that one member. -/
theorem C11_make_response_envelope (lib : Libraries) (members : List (String × Json)) :
    (∃ content N B,
      content = .obj (Json.assocSet "jsonrpc" (.str "2.0") members) ∧
      content.lookup "jsonrpc" = some (.str "2.0") ∧
      (∀ key, key ≠ "jsonrpc" → content.lookup key = (Json.obj members).lookup key) ∧
      B = lib.dump content ∧
      (∀ c ∈ N.data, c.isDigit = true) ∧ decimal_value N.data 0 = B.length ∧
      make_response lib (.obj members) = .ok
        ("Content-Length: " ++ N
          ++ "\r\nContent-Type: application/vscode-jsonrpc;charset=utf-8\r\n\r\n" ++ B)) ∧
    make_response lib .null = .ok
      ("Content-Length: " ++ toString (lib.dump (.obj [("jsonrpc", .str "2.0")])).length
        ++ "\r\nContent-Type: application/vscode-jsonrpc;charset=utf-8\r\n\r\n"
        ++ lib.dump (.obj [("jsonrpc", .str "2.0")])) := by
  have hassoc : ∀ N B : String,
      "Content-Length: " ++ N ++ "\r\n"
        ++ "Content-Type: application/vscode-jsonrpc;charset=utf-8\r\n" ++ "\r\n" ++ B
      = "Content-Length: " ++ N
        ++ "\r\nContent-Type: application/vscode-jsonrpc;charset=utf-8\r\n\r\n" ++ B := by
    intro N B
    simp only [String.append_assoc]
    rfl
  constructor
  · refine ⟨.obj (Json.assocSet "jsonrpc" (.str "2.0") members),
      toString (lib.dump (.obj (Json.assocSet "jsonrpc" (.str "2.0") members))).length,
      lib.dump (.obj (Json.assocSet "jsonrpc" (.str "2.0") members)), rfl, ?_, ?_, rfl, ?_, ?_, ?_⟩
    · simp [Json.lookup, Json.assocGet_assocSet_self]
    · intro key hkey
      simp [Json.lookup, Json.assocGet_assocSet_ne "jsonrpc" key _ members hkey]
    · exact (to_string_decimal _).1
    · exact (to_string_decimal _).2
    · rw [make_response_obj, hassoc]
  · have h : make_response lib .null = .ok
        ("Content-Length: " ++ toString (lib.dump (.obj [("jsonrpc", .str "2.0")])).length
          ++ "\r\n" ++ "Content-Type: application/vscode-jsonrpc;charset=utf-8\r\n" ++ "\r\n"
          ++ lib.dump (.obj [("jsonrpc", .str "2.0")])) := rfl
    rw [h, hassoc]

/-! ## Document messages: claims C12 and C17 -/

/-- What `handle_message` publishes for the diagnostics pushed: the array of
them, also when there is none. -/
theorem published_diagnostics_value (ds : List Json) :
    (if (diagnostics_value ds).empty then Json.arr [] else diagnostics_value ds) = .arr ds := by
  cases ds with
  | nil => rfl
  | cons d rest => rfl

/-- For a document of a known kind, `get_diagnostics` is the translation of the
log the validator gives for the text. -/
theorem get_diagnostics_eq (lib : Libraries) (uri text : String) (lang : EShLanguage)
    (hlang : find_language uri = .ok lang) :
    get_diagnostics lib uri text = translate (lib.info_log lang text) text := by
  simp [get_diagnostics, hlang, bind, Except.bind]

/-- Validation of a document of a known kind whose log translates to the
diagnostics `ds`: the notification with the array of `ds`. -/
theorem publish_diagnostics_eq (lib : Libraries) (uri text : String) (lang : EShLanguage)
    (ds : List Json) (hlang : find_language uri = .ok lang)
    (htr : translate (lib.info_log lang text) text = .ok (diagnostics_value ds)) :
    publish_diagnostics lib uri text
      = (make_response lib (publish_body (.str uri) (.arr ds))).map some := by
  simp only [publish_diagnostics, get_diagnostics_eq lib uri text lang hlang, htr, bind,
    Except.bind, published_diagnostics_value]
  cases make_response lib (publish_body (.str uri) (.arr ds)) <;> rfl

/-- C17: for a `textDocument/didChange` message whose document is not in the
workspace: afterwards the document map is the old one with the document mapped
to the empty text, the text of the change is not stored, and the result is that
of validating the empty text; for a document of a known kind, the validator is
run on the empty text. -/
theorem C17_did_change_unknown_document (lib : Libraries) (body : Json) (st : AppState)
    (params document first : Json) (later : List Json) (uri change : String)
    (hm : body.lookup "method" = some (.str "textDocument/didChange"))
    (hparams : body.lookup "params" = some params)
    (hdoc : params.lookup "textDocument" = some document)
    (huri : document.lookup "uri" = some (.str uri))
    (hchanges : params.lookup "contentChanges" = some (.arr (first :: later)))
    (hchange : first.lookup "text" = some (.str change))
    (hout : st.workspace.documents uri = none) :
    (handle_message lib body st).appstate.workspace.documents
      = Workspace.map_assign st.workspace.documents uri "" ∧
    (handle_message lib body st).appstate.workspace.documents uri = some "" ∧
    (handle_message lib body st).result = publish_diagnostics lib uri "" ∧
    (∀ lang, find_language uri = .ok lang →
      get_diagnostics lib uri "" = translate (lib.info_log lang "") "") := by
  have hout' : st.workspace.m_documents uri = none := hout
  have hws : ((st.workspace.change_document uri change).2).documents_subscript uri
      = ("", { st.workspace with
          m_documents := Workspace.map_assign st.workspace.m_documents uri "" }) := by
    simp [Workspace.change_document, Workspace.documents_subscript, hout']
  rw [handle_message_did_change lib body st hm,
    did_change_eq lib body st params document first later uri change hparams hdoc huri
      hchanges hchange, hws]
  refine ⟨rfl, by simp [Workspace.documents, Workspace.map_assign], rfl, ?_⟩
  intro lang hlang
  exact get_diagnostics_eq lib uri "" lang hlang

/-- C17 at a concrete input: a change for the document `other.frag`, which the
workspace does not hold; the text of the change is not stored, the empty text
is. -/
theorem C17_did_change_unknown_document_witness :
    (state_with_document "shader.frag" "void main() \x7b\x7d").workspace.documents "other.frag"
      = none ∧
    (handle_message (sample_libraries "") (did_change_message "other.frag" "foo = 1;")
        (state_with_document "shader.frag" "void main() \x7b\x7d")).appstate.workspace.documents
      = Workspace.map_assign
          (state_with_document "shader.frag" "void main() \x7b\x7d").workspace.documents
          "other.frag" "" ∧
    (handle_message (sample_libraries "") (did_change_message "other.frag" "foo = 1;")
        (state_with_document "shader.frag" "void main() \x7b\x7d")).appstate.workspace.documents
        "other.frag" = some "" ∧
    (handle_message (sample_libraries "") (did_change_message "other.frag" "foo = 1;")
        (state_with_document "shader.frag" "void main() \x7b\x7d")).result
      = publish_diagnostics (sample_libraries "") "other.frag" "" :=
  ⟨rfl,
    (C17_did_change_unknown_document (sample_libraries "")
      (did_change_message "other.frag" "foo = 1;")
      (state_with_document "shader.frag" "void main() \x7b\x7d")
      (.obj [("textDocument", .obj [("uri", .str "other.frag")]),
        ("contentChanges", .arr [.obj [("text", .str "foo = 1;")]])])
      (.obj [("uri", .str "other.frag")]) (.obj [("text", .str "foo = 1;")]) []
      "other.frag" "foo = 1;" rfl rfl rfl rfl rfl rfl rfl).1,
    (C17_did_change_unknown_document (sample_libraries "")
      (did_change_message "other.frag" "foo = 1;")
      (state_with_document "shader.frag" "void main() \x7b\x7d")
      (.obj [("textDocument", .obj [("uri", .str "other.frag")]),
        ("contentChanges", .arr [.obj [("text", .str "foo = 1;")]])])
      (.obj [("uri", .str "other.frag")]) (.obj [("text", .str "foo = 1;")]) []
      "other.frag" "foo = 1;" rfl rfl rfl rfl rfl rfl rfl).2.1,
    (C17_did_change_unknown_document (sample_libraries "")
      (did_change_message "other.frag" "foo = 1;")
      (state_with_document "shader.frag" "void main() \x7b\x7d")
      (.obj [("textDocument", .obj [("uri", .str "other.frag")]),
        ("contentChanges", .arr [.obj [("text", .str "foo = 1;")]])])
      (.obj [("uri", .str "other.frag")]) (.obj [("text", .str "foo = 1;")]) []
      "other.frag" "foo = 1;" rfl rfl rfl rfl rfl rfl rfl).2.2.1⟩

/-- For a `textDocument/didOpen` message with document name `uri` of a kind
`find_language` knows and text `text`, such that every matching line of the
validator's log has a number `std::stoi` reads and that is the number of a line
of the text: afterwards the workspace maps `uri` to `text` and every other name
to what it had; the result is `make_response` of a body whose `method` is
`textDocument/publishDiagnostics`, whose `params.uri` is `uri` and whose
`params.diagnostics` is the array of the diagnostics the translation pushed,
the empty array when no line of the log matches. -/
theorem did_open_publishes_of_valid_log (lib : Libraries) (body : Json) (st : AppState)
    (params document : Json) (uri text : String) (lang : EShLanguage)
    (hm : body.lookup "method" = some (.str "textDocument/didOpen"))
    (hparams : body.lookup "params" = some params)
    (hdoc : params.lookup "textDocument" = some document)
    (huri : document.lookup "uri" = some (.str uri))
    (htext : document.lookup "text" = some (.str text))
    (hlang : find_language uri = .ok lang)
    (hlog : ∀ line ∈ split_string (lib.info_log lang text) "\n",
      is_diagnostic_line line = true →
      refers_to_source_line (split_string text "\n") line = true) :
    ∃ (ds : List Json) (result_body : Json) (response : String),
      translate (lib.info_log lang text) text = .ok (diagnostics_value ds) ∧
      ((split_string (lib.info_log lang text) "\n").filter is_diagnostic_line = [] → ds = []) ∧
      result_body.lookup "method" = some (.str "textDocument/publishDiagnostics") ∧
      result_body.path ["params", "uri"] = some (.str uri) ∧
      result_body.path ["params", "diagnostics"] = some (.arr ds) ∧
      make_response lib result_body = .ok response ∧
      (handle_message lib body st).result = .ok (some response) ∧
      (handle_message lib body st).appstate.workspace.documents uri = some text ∧
      (∀ other, other ≠ uri →
        (handle_message lib body st).appstate.workspace.documents other
          = st.workspace.documents other) := by
  obtain ⟨ds, hloop, hall⟩ := diagnostics_loop_spec (split_string text "\n")
    (split_string (lib.info_log lang text) "\n") [] hlog
  have htr : translate (lib.info_log lang text) text = .ok (diagnostics_value ds) := by
    simpa [translate] using hloop
  have hnone : (split_string (lib.info_log lang text) "\n").filter is_diagnostic_line = [] →
      ds = [] := by
    intro h
    rw [h] at hall
    cases hall
    rfl
  obtain ⟨response, hresp⟩ : ∃ response,
      make_response lib (publish_body (.str uri) (.arr ds)) = .ok response :=
    ⟨_, make_response_obj lib _⟩
  refine ⟨ds, publish_body (.str uri) (.arr ds), response, htr, hnone, rfl, rfl, rfl, hresp,
    ?_, ?_, ?_⟩
  · rw [handle_message_did_open lib body st hm,
      did_open_eq lib body st params document uri text hparams hdoc huri htext,
      publish_diagnostics_eq lib uri text lang ds hlang htr, hresp]
    rfl
  · rw [handle_message_did_open lib body st hm,
      did_open_eq lib body st params document uri text hparams hdoc huri htext]
    simp [Workspace.documents, Workspace.add_document, Workspace.map_assign]
  · intro other hother
    rw [handle_message_did_open lib body st hm,
      did_open_eq lib body st params document uri text hparams hdoc huri htext]
    simp [Workspace.documents, Workspace.add_document, Workspace.map_assign, hother]

/-! ## Ranges: claims C14 and C18 -/

/-- When the message names no identifier, the range is the whole source
line. -/
theorem char_range_whole_line (message source_line : String)
    (hno : regex_search re_identifier message = [])
    (hlen : source_line.length < 2 ^ 31) :
    char_range message source_line = (0, (source_line.length : Int)) := by
  have h : to_int (source_line.length : Int) = source_line.length :=
    to_int_of_range _ (by norm_num; omega) (by norm_num at hlen ⊢; omega)
  simp [char_range, hno, h]

/-- C14: for a log line in which the pattern `(.*): 0:(\d*): (.*)` captures the
number `number` and the message `text`, and whose trimmed message the pattern
`'(.*)' : (.*)` does not match: when `std::stoi` reads `number` as `n` and line
`n - 1` of the source exists and is shorter than 2^31 characters, the diagnostic
added for the line has start `(n - 1, 0)` and end `(n - 1, length of that
line)`. -/
theorem C14_whole_line_range (content : String) (ds : List Json)
    (line whole severity number text : String) (n : Int) (source_line : String)
    (hm : regex_search re_diagnostic line = [whole, severity, number, text])
    (hno : regex_search re_identifier (trim text " ") = [])
    (hn : stoi number = .ok n) (h1 : 1 ≤ n)
    (hline : (split_string content "\n").get? (n - 1).toNat = some source_line)
    (hlen : source_line.length < 2 ^ 31) :
    diagnostics_step (split_string content "\n") (diagnostics_value ds) line
      = .ok (diagnostics_value (ds ++ [diagnostic_json (n - 1) 0 source_line.length
          (severity_no severity) (trim text " ")])) := by
  rw [diagnostics_step_matching (split_string content "\n") ds line whole severity number text n
    source_line hm hn h1 hline,
    char_range_whole_line (trim text " ") source_line hno hlen]

/-- C14 at a concrete input: the message `syntax error` names no identifier;
line 1 of the source has 13 characters. -/
theorem C14_whole_line_range_witness :
    regex_search re_diagnostic "ERROR: 0:2: syntax error"
      = ["ERROR: 0:2: syntax error", "ERROR", "2", "syntax error"] ∧
    regex_search re_identifier (trim "syntax error" " ") = [] ∧
    stoi "2" = .ok 2 ∧
    (split_string "void main()\n\x7b int a = ; \x7d" "\n").get? 1 = some "\x7b int a = ; \x7d" ∧
    diagnostics_step (split_string "void main()\n\x7b int a = ; \x7d" "\n")
        (diagnostics_value []) "ERROR: 0:2: syntax error"
      = .ok (diagnostics_value [diagnostic_json 1 0 13 1 "syntax error"]) :=
  ⟨rfl, rfl, rfl, rfl,
    C14_whole_line_range "void main()\n\x7b int a = ; \x7d" [] "ERROR: 0:2: syntax error"
      "ERROR: 0:2: syntax error" "ERROR" "2" "syntax error" 2 "\x7b int a = ; \x7d"
      rfl rfl rfl (by decide) rfl (by decide)⟩

/-- The scan of `find` fails when the text occurs nowhere. -/
theorem find_from_none (needle text : List Char) (pos : Nat)
    (h : ∀ i, ¬ occurs_at needle text i) : find_from needle text pos = none := by
  induction text generalizing pos with
  | nil =>
    have hs : starts_with needle [] = false := by
      cases hb : starts_with needle [] with
      | false => rfl
      | true => exact absurd (by simpa [occurs_at] using (starts_with_iff _ _).1 hb) (h 0)
    simp [find_from, hs]
  | cons c cs ih =>
    have hs : starts_with needle (c :: cs) = false := by
      cases hb : starts_with needle (c :: cs) with
      | false => rfl
      | true => exact absurd (by simpa [occurs_at] using (starts_with_iff _ _).1 hb) (h 0)
    simp only [find_from, hs, Bool.false_eq_true, if_false]
    apply ih
    intro i hi
    exact h (i + 1) (by simpa [occurs_at] using hi)

/-- The call `find` returns `npos` when the text occurs nowhere. -/
theorem find_npos (text needle : String)
    (h : ∀ i, ¬ occurs_at needle.data text.data i) : find text needle = npos := by
  simp [find, find_from_none needle.data text.data 0 h]

/-- A text that occurs has a first occurrence. -/
theorem exists_first_occurrence (needle text : List Char) (j : Nat)
    (h : occurs_at needle text j) : ∃ i, i ≤ j ∧ first_occurrence needle text i := by
  classical
  have hex : ∃ i, occurs_at needle text i := ⟨j, h⟩
  refine ⟨Nat.find hex, Nat.find_min' hex h, Nat.find_spec hex, ?_⟩
  intro k hk
  exact Nat.find_min hex hk

/-- When the message names an identifier that the source line does not have, the
start is -1 and the end the length of the identifier minus 2. -/
theorem char_range_not_found (message source_line whole identifier rest : String)
    (hid : regex_search re_identifier message = [whole, identifier, rest])
    (hnot : ∀ i, ¬ occurs_at identifier.data source_line.data i)
    (hlen : identifier.length < 2 ^ 31) :
    char_range message source_line = (-1, (identifier.length : Int) - 2) := by
  have hfind := find_npos source_line identifier hnot
  have hidl : to_int (identifier.length : Int) = identifier.length :=
    to_int_of_range _ (by norm_num; omega) (by norm_num at hlen ⊢; omega)
  have hpos : 0 < identifier.length := by
    by_contra hz
    have hnil : identifier.data = [] := List.length_eq_zero.1 (by
      have : identifier.length = identifier.data.length := rfl
      omega)
    exact hnot 0 (by simp [occurs_at, hnil])
  simp only [char_range, hid, List.length_cons, List.length_nil, List.getD, List.get?,
    Option.getD, hfind, hidl, to_int_to_size_t, if_true, Nat.reduceAdd]
  have h1 : to_int ((npos : Nat) : Int) = -1 := by
    unfold to_int npos
    norm_num
  have h2 : to_int (((npos : Nat) : Int) + identifier.length - 1)
      = (identifier.length : Int) - 2 := by
    unfold to_int npos
    norm_num at hlen ⊢
    omega
  rw [h1, h2]

/-- A text that is not empty occurs nowhere in a text when it occurs at none of
its offsets. -/
theorem not_occurs_of_bounded (needle text : List Char) (hne : needle ≠ [])
    (h : ∀ i, i < text.length → ¬ occurs_at needle text i) :
    ∀ i, ¬ occurs_at needle text i := by
  intro i hi
  by_cases hb : i < text.length
  · exact h i hb hi
  · unfold occurs_at at hi
    rw [List.drop_eq_nil_of_le (by omega)] at hi
    exact hne (List.prefix_nil.1 hi)

/-- C18: for a matching log line whose number is that of a line of the source
and in whose trimmed message the pattern `'(.*)' : (.*)` captures `identifier`.
When `identifier`, shorter than 2^31 characters, occurs nowhere in the source
line, the diagnostic added has the start character -1 and the end character
`length identifier - 2`. When `identifier` is not empty and occurs in the source
line, itself shorter than 2^31 characters, the diagnostic added has
`0 ≤ start ≤ end < length of the source line`. -/
theorem C18_identifier_range_bounds (content_lines : List String) (ds : List Json)
    (line whole severity number text whole_id identifier rest : String)
    (n : Int) (source_line : String)
    (hm : regex_search re_diagnostic line = [whole, severity, number, text])
    (hid : regex_search re_identifier (trim text " ") = [whole_id, identifier, rest])
    (hn : stoi number = .ok n) (h1 : 1 ≤ n)
    (hline : content_lines.get? (n - 1).toNat = some source_line) :
    ((∀ i, ¬ occurs_at identifier.data source_line.data i) →
      identifier.length < 2 ^ 31 →
      diagnostics_step content_lines (diagnostics_value ds) line
        = .ok (diagnostics_value (ds ++ [diagnostic_json (n - 1) (-1) (identifier.length - 2)
            (severity_no severity) (trim text " ")]))) ∧
    (∀ j, occurs_at identifier.data source_line.data j →
      identifier ≠ "" →
      source_line.length < 2 ^ 31 →
      ∃ start_char end_char : Int,
        diagnostics_step content_lines (diagnostics_value ds) line
          = .ok (diagnostics_value (ds ++ [diagnostic_json (n - 1) start_char end_char
              (severity_no severity) (trim text " ")])) ∧
        0 ≤ start_char ∧ start_char ≤ end_char ∧ end_char < source_line.length) := by
  have hstep := diagnostics_step_matching content_lines ds line whole severity number text n
    source_line hm hn h1 hline
  constructor
  · intro hnot hlen
    rw [hstep, char_range_not_found (trim text " ") source_line whole_id identifier rest hid
      hnot hlen]
  · intro j hj hne hlen
    obtain ⟨i, _, hfirst⟩ := exists_first_occurrence identifier.data source_line.data j hj
    have hroom := occurs_at_length identifier.data source_line.data i hfirst
    have hl1 : identifier.length = identifier.data.length := rfl
    have hl2 : source_line.length = source_line.data.length := rfl
    have hpos : 0 < identifier.length := by
      by_contra hz
      apply hne
      have hnil : identifier.data = [] := List.length_eq_zero.1 (by omega)
      exact String.ext hnil
    refine ⟨i, (i : Int) + identifier.length - 1, ?_, ?_, ?_, ?_⟩
    · rw [hstep, char_range_identifier (trim text " ") source_line whole_id identifier rest i
        hid hfirst hlen]
    · omega
    · omega
    · omega

/-- C18 at concrete inputs: the identifier `foo` for the source line `bar = 1;`,
which does not have it, and for the source line `  foo = 1;`, which has it. -/
theorem C18_identifier_range_bounds_witness :
    regex_search re_diagnostic "ERROR: 0:1: 'foo' : undeclared identifier"
      = ["ERROR: 0:1: 'foo' : undeclared identifier", "ERROR", "1",
         "'foo' : undeclared identifier"] ∧
    regex_search re_identifier (trim "'foo' : undeclared identifier" " ")
      = ["'foo' : undeclared identifier", "foo", "undeclared identifier"] ∧
    stoi "1" = .ok 1 ∧
    (∀ i, ¬ occurs_at "foo".data "bar = 1;".data i) ∧
    diagnostics_step ["bar = 1;"] (diagnostics_value [])
        "ERROR: 0:1: 'foo' : undeclared identifier"
      = .ok (diagnostics_value
          [diagnostic_json 0 (-1) 1 1 "'foo' : undeclared identifier"]) ∧
    occurs_at "foo".data "  foo = 1;".data 2 ∧
    ∃ start_char end_char : Int,
      diagnostics_step ["  foo = 1;"] (diagnostics_value [])
          "ERROR: 0:1: 'foo' : undeclared identifier"
        = .ok (diagnostics_value ([] ++ [diagnostic_json (1 - 1) start_char end_char
            (severity_no "ERROR") (trim "'foo' : undeclared identifier" " ")])) ∧
      0 ≤ start_char ∧ start_char ≤ end_char ∧ end_char < "  foo = 1;".length :=
  ⟨rfl, rfl, rfl, not_occurs_of_bounded _ _ (by decide) (by decide),
    (C18_identifier_range_bounds ["bar = 1;"] [] "ERROR: 0:1: 'foo' : undeclared identifier"
      "ERROR: 0:1: 'foo' : undeclared identifier" "ERROR" "1" "'foo' : undeclared identifier"
      "'foo' : undeclared identifier" "foo" "undeclared identifier" 1 "bar = 1;"
      rfl rfl rfl (by decide) rfl).1
      (not_occurs_of_bounded _ _ (by decide) (by decide)) (by decide),
    by decide,
    (C18_identifier_range_bounds ["  foo = 1;"] [] "ERROR: 0:1: 'foo' : undeclared identifier"
      "ERROR: 0:1: 'foo' : undeclared identifier" "ERROR" "1" "'foo' : undeclared identifier"
      "'foo' : undeclared identifier" "foo" "undeclared identifier" 1 "  foo = 1;"
      rfl rfl rfl (by decide) rfl).2 2 (by decide) (by decide) (by decide)⟩

/-! ## The line number: claim C19 -/

/-- A match found by the search is a match at some start. -/
theorem search_from_some (pattern : List Piece) (input : List Char) (m : Match)
    (h : search_from pattern input = some m) :
    ∃ suffix, match_here pattern suffix = some m := by
  induction input with
  | nil => exact ⟨[], by simpa [search_from] using h⟩
  | cons c cs ih =>
    simp only [search_from] at h
    cases hc : match_here pattern (c :: cs) with
    | some m' =>
      rw [hc] at h
      simp only [Option.some.injEq] at h
      exact ⟨c :: cs, by rw [hc, h]⟩
    | none =>
      rw [hc] at h
      exact ih h

/-- The run of a greedy repetition has only characters the atom accepts, and
the rest of the pattern matched somewhere. -/
theorem star_greedy_sound (a : Atom) (k : List Char → Option Match) (input run : List Char)
    (m : Match) (h : star_greedy a k input = some (run, m)) :
    (∀ c ∈ run, a.accepts c = true) ∧ ∃ rest, k rest = some m := by
  induction input generalizing run m with
  | nil =>
    simp only [star_greedy, Option.map_eq_some'] at h
    obtain ⟨m', hk, he⟩ := h
    simp only [Prod.mk.injEq] at he
    rw [← he.1, ← he.2]
    exact ⟨by simp, [], hk⟩
  | cons c cs ih =>
    simp only [star_greedy] at h
    by_cases hc : a.accepts c = true
    · rw [if_pos hc] at h
      cases hs : star_greedy a k cs with
      | some r =>
        obtain ⟨run', m'⟩ := r
        rw [hs] at h
        simp only [Option.some.injEq, Prod.mk.injEq] at h
        obtain ⟨hrun, rest, hk⟩ := ih run' m' hs
        rw [← h.1, ← h.2]
        refine ⟨?_, rest, hk⟩
        intro x hx
        rcases List.mem_cons.1 hx with rfl | hx
        · exact hc
        · exact hrun x hx
      | none =>
        rw [hs] at h
        simp only [Option.map_eq_some'] at h
        obtain ⟨m', hk, he⟩ := h
        simp only [Prod.mk.injEq] at he
        rw [← he.1, ← he.2]
        exact ⟨by simp, c :: cs, hk⟩
    · rw [if_neg hc] at h
      simp only [Option.map_eq_some'] at h
      obtain ⟨m', hk, he⟩ := h
      simp only [Prod.mk.injEq] at he
      rw [← he.1, ← he.2]
      exact ⟨by simp, c :: cs, hk⟩

/-- A match of the pattern `(.*): 0:(\d*): (.*)` has three groups, and the
second has only decimal digits. -/
theorem match_here_diagnostic_groups (input : List Char) (m : Match)
    (h : match_here re_diagnostic input = some m) :
    ∃ g1 g2 g3, m.groups = [g1, g2, g3] ∧ ∀ c ∈ g2, c.isDigit = true := by
  rw [re_diagnostic, match_here_cap] at h
  simp only [Option.map_eq_some'] at h
  obtain ⟨⟨run1, m1⟩, h1, he1⟩ := h
  obtain ⟨_, rest1, hk1⟩ := star_greedy_sound _ _ _ _ _ h1
  -- the literal `: 0:`
  rw [match_here] at hk1
  split at hk1
  swap
  · simp at hk1
  simp only [Option.map_eq_some'] at hk1
  obtain ⟨m2, h2, he2⟩ := hk1
  -- the number
  rw [match_here_cap] at h2
  simp only [Option.map_eq_some'] at h2
  obtain ⟨⟨run2, m3⟩, h3, he3⟩ := h2
  obtain ⟨hdigits, rest3, hk3⟩ := star_greedy_sound _ _ _ _ _ h3
  -- the literal `: `
  rw [match_here] at hk3
  split at hk3
  swap
  · simp at hk3
  simp only [Option.map_eq_some'] at hk3
  obtain ⟨m4, h4, he4⟩ := hk3
  -- the message
  rw [match_here_cap] at h4
  simp only [Option.map_eq_some'] at h4
  obtain ⟨⟨run5, m5⟩, h5, he5⟩ := h4
  obtain ⟨_, rest5, hk5⟩ := star_greedy_sound _ _ _ _ _ h5
  simp only [match_here, Option.some.injEq] at hk5
  refine ⟨run1, run2, run5, ?_, hdigits⟩
  rw [← he1, ← he2, ← he3, ← he4, ← he5, ← hk5]
  rfl

/-- The line number the pattern captures has only decimal digits. -/
theorem regex_search_diagnostic_number (line whole severity number text : String)
    (h : regex_search re_diagnostic line = [whole, severity, number, text]) :
    ∀ c ∈ number.data, c.isDigit = true := by
  unfold regex_search at h
  cases hs : search_from re_diagnostic line.data with
  | none => rw [hs] at h; simp at h
  | some m =>
    rw [hs] at h
    obtain ⟨suffix, hm⟩ := search_from_some _ _ _ hs
    obtain ⟨g1, g2, g3, hg, hd⟩ := match_here_diagnostic_groups suffix m hm
    simp only [hg, List.map_cons, List.map_nil, List.cons.injEq, and_true] at h
    rw [← h.2.2.1]
    exact hd

/-- A decimal digit is neither white space nor a sign. -/
theorem isDigit_not_space_or_sign (c : Char) (h : c.isDigit = true) :
    isspace c = false ∧ c ≠ '-' ∧ c ≠ '+' := by
  refine ⟨?_, ?_, ?_⟩
  · cases hs : isspace c with
    | false => rfl
    | true =>
      simp only [isspace, Bool.or_eq_true, beq_iff_eq] at hs
      rcases hs with ((((rfl | rfl) | rfl) | rfl) | rfl) | rfl <;> simp at h
  · rintro rfl; simp at h
  · rintro rfl; simp at h

/-- On a text of decimal digits `std::stoi` skips nothing: it fails with
`std::invalid_argument` on the empty text and with `std::out_of_range` on a
value of 2^31 or more, and returns the value otherwise. -/
theorem stoi_of_digits (text : String) (h : ∀ c ∈ text.data, c.isDigit = true) :
    stoi text =
      if text.data = [] then .error (.invalid_argument "stoi")
      else if 2 ^ 31 ≤ decimal_value text.data 0 then .error (.out_of_range "stoi")
      else .ok (decimal_value text.data 0 : Int) := by
  have hstoi : stoi text = stoi_value false text.data := by
    unfold stoi
    cases hd : text.data with
    | nil => simp
    | cons c cs =>
      rw [hd] at h
      obtain ⟨hsp, hm, hp⟩ := isDigit_not_space_or_sign c (h c (List.mem_cons_self _ _))
      have htake : List.takeWhile Char.isDigit (c :: cs) = c :: cs :=
        List.takeWhile_eq_self_iff.2 (by simpa using h)
      have hm' : (c == '-') = false := by simpa using hm
      simp [List.dropWhile, hsp, hm, hp, htake, hm']
  rw [hstoi]
  unfold stoi_value signed_value
  by_cases he : text.data = []
  · simp [he]
  · have he' : ¬ text.data.isEmpty = true := by simpa using he
    rw [if_neg he', if_neg he]
    simp only [Bool.false_eq_true, if_false]
    by_cases hbig : 2 ^ 31 ≤ decimal_value text.data 0
    · rw [if_pos hbig, if_pos]
      right
      norm_num at hbig ⊢
      omega
    · rw [if_neg hbig, if_neg]
      norm_num at hbig ⊢
      omega

/-- What the pattern captures as line number, and what `std::stoi` makes of it:
the text has only decimal digits, possibly none, and the conversion succeeds
exactly when there is a digit and the value is below 2^31. -/
theorem line_number_conversion (line whole severity number text : String)
    (h : regex_search re_diagnostic line = [whole, severity, number, text]) :
    (∀ c ∈ number.data, c.isDigit = true) ∧
    stoi number =
      if number.data = [] then .error (.invalid_argument "stoi")
      else if 2 ^ 31 ≤ decimal_value number.data 0 then .error (.out_of_range "stoi")
      else .ok (decimal_value number.data 0 : Int) :=
  ⟨regex_search_diagnostic_number line whole severity number text h,
    stoi_of_digits number (regex_search_diagnostic_number line whole severity number text h)⟩

/-- C19, the code at failing inputs: the pattern `(.*): 0:(\d*): (.*)` matches a
line without any digit between `0:` and `: `; the captured number is empty,
`std::stoi` raises `std::invalid_argument`, and the translation ends there. A
captured number of 2^31 or more is a decimal numeral, yet `std::stoi` raises
`std::out_of_range` and the translation ends as well. -/
theorem C19_line_number_conversion_fails :
    regex_search re_diagnostic "ERROR: 0:: missing line number"
      = ["ERROR: 0:: missing line number", "ERROR", "", "missing line number"] ∧
    stoi "" = .error (.invalid_argument "stoi") ∧
    translate "ERROR: 0:: missing line number" "void main() \x7b\x7d"
      = .error (.invalid_argument "stoi") ∧
    regex_search re_diagnostic "ERROR: 0:2147483648: too far"
      = ["ERROR: 0:2147483648: too far", "ERROR", "2147483648", "too far"] ∧
    stoi "2147483648" = .error (.out_of_range "stoi") ∧
    translate "ERROR: 0:2147483648: too far" "void main() \x7b\x7d"
      = .error (.out_of_range "stoi") := by
  refine ⟨rfl, rfl, rfl, rfl, rfl, rfl⟩

/-! ## Lines of the expected form: claim C6 -/

/-- A text that is not empty occurs only at the start of a text when it occurs
at none of its later offsets. -/
theorem occurs_only_at_start_of_bounded (sep text : List Char) (hne : sep ≠ [])
    (h : ∀ j, j < text.length → 0 < j → ¬ occurs_at sep text j) :
    ∀ j, 0 < j → ¬ occurs_at sep text j := by
  intro j hj hocc
  by_cases hb : j < text.length
  · exact h j hb hj hocc
  · unfold occurs_at at hocc
    rw [List.drop_eq_nil_of_le (by omega)] at hocc
    exact hne (List.prefix_nil.1 hocc)

/-- A text that neither begins nor ends with a space is left as it is by
`trim`. -/
theorem trim_eq_self (text : String) (first last : Char)
    (hfirst : text.data.head? = some first) (hf : first ≠ ' ')
    (hlast : text.data.getLast? = some last) (hl : last ≠ ' ') :
    trim text " " = text := by
  have hdrop : ∀ (l : List Char) (c : Char), l.head? = some c → c ≠ ' ' →
      l.dropWhile (fun c => " ".data.contains c) = l := by
    intro l c hc hne
    cases l with
    | nil => rfl
    | cons x xs =>
      simp only [List.head?_cons, Option.some.injEq] at hc
      subst hc
      have : (" ".data.contains x) = false := by
        show ([' '].contains x) = false
        simp [hne]
      simp [List.dropWhile, hne]
  have hrev : text.data.reverse.head? = some last := by
    rw [List.head?_reverse]; exact hlast
  unfold trim
  rw [hdrop text.data first hfirst hf, hdrop text.data.reverse last hrev hl, List.reverse_reverse]

/-- C6, amended: for a log line written `SEVERITY: 0:N: 'ID' : REST` without
line terminator, where `N` has only decimal digits, `REST` ends in a character
that is not a space, the text `: 0:` does not occur again after `SEVERITY` and
the text `' : ` does not occur again after `ID`: when `std::stoi` reads `N` as
`n`, line `n - 1` of the source exists, is shorter than 2^31 characters and has
the first occurrence of `ID` at offset `i`, the diagnostic added for the line
has start `(n - 1, i)`, end `(n - 1, i + length ID - 1)`, the number of
`SEVERITY` and the message `'ID' : REST`. -/
theorem C6_identifier_range_of_form (content : String) (ds : List Json)
    (severity number identifier rest : String) (last : Char)
    (n : Int) (source_line : String) (i : Nat)
    (hsev : ∀ c ∈ severity.data, Atom.any.accepts c = true)
    (hnum : ∀ c ∈ number.data, c.isDigit = true)
    (hident : ∀ c ∈ identifier.data, Atom.any.accepts c = true)
    (hrest : ∀ c ∈ rest.data, Atom.any.accepts c = true)
    (hlast : rest.data.getLast? = some last) (hspace : last ≠ ' ')
    (honce : ∀ j, 0 < j → ¬ occurs_at ": 0:".data
      (": 0:" ++ number ++ ": " ++ ("'" ++ identifier ++ "' : " ++ rest)).data j)
    (honce_id : ∀ j, 0 < j → ¬ occurs_at "' : ".data ("' : " ++ rest).data j)
    (hn : stoi number = .ok n) (h1 : 1 ≤ n)
    (hline : (split_string content "\n").get? (n - 1).toNat = some source_line)
    (hocc : first_occurrence identifier.data source_line.data i)
    (hlen : source_line.length < 2 ^ 31) :
    diagnostics_step (split_string content "\n") (diagnostics_value ds)
        (severity ++ ": 0:" ++ number ++ ": " ++ ("'" ++ identifier ++ "' : " ++ rest))
      = .ok (diagnostics_value (ds ++ [diagnostic_json (n - 1) i (i + identifier.length - 1)
          (severity_no severity) ("'" ++ identifier ++ "' : " ++ rest)])) := by
  -- the message and the line as lists of characters
  have htext_data : ("'" ++ identifier ++ "' : " ++ rest).data
      = ['\''] ++ (identifier.data ++ (['\'', ' ', ':', ' '] ++ rest.data)) := by
    simp only [String.data_append, List.append_assoc]
  have hline_data : (severity ++ ": 0:" ++ number ++ ": "
        ++ ("'" ++ identifier ++ "' : " ++ rest)).data
      = severity.data ++ ([':', ' ', '0', ':'] ++ (number.data ++ ([':', ' ']
          ++ ("'" ++ identifier ++ "' : " ++ rest).data))) := by
    simp only [String.data_append, List.append_assoc]
  have htail_data : (": 0:" ++ number ++ ": " ++ ("'" ++ identifier ++ "' : " ++ rest)).data
      = [':', ' ', '0', ':'] ++ (number.data ++ ([':', ' ']
          ++ ("'" ++ identifier ++ "' : " ++ rest).data)) := by
    simp only [String.data_append, List.append_assoc]
  have hid_tail_data : ("' : " ++ rest).data = ['\'', ' ', ':', ' '] ++ rest.data := by
    simp only [String.data_append]
  have htext : ∀ c ∈ ("'" ++ identifier ++ "' : " ++ rest).data, Atom.any.accepts c = true := by
    intro c hc
    rw [htext_data] at hc
    simp only [List.mem_append, List.mem_cons, List.mem_singleton, List.not_mem_nil,
      or_false] at hc
    rcases hc with rfl | hc | (rfl | rfl | rfl | rfl) | hc
    · decide
    · exact hident c hc
    · decide
    · decide
    · decide
    · decide
    · exact hrest c hc
  -- what the first pattern captures
  have hm : regex_search re_diagnostic
      (severity ++ ": 0:" ++ number ++ ": " ++ ("'" ++ identifier ++ "' : " ++ rest))
      = [severity ++ ": 0:" ++ number ++ ": " ++ ("'" ++ identifier ++ "' : " ++ rest),
         severity, number, "'" ++ identifier ++ "' : " ++ rest] := by
    have h := regex_search_diagnostic_form severity.data number.data
      ("'" ++ identifier ++ "' : " ++ rest).data hsev hnum htext (by
        intro j hj
        rw [← htail_data]
        exact honce j hj)
    rw [← hline_data] at h
    exact h
  -- the message is already trimmed
  have htrim : trim ("'" ++ identifier ++ "' : " ++ rest) " "
      = "'" ++ identifier ++ "' : " ++ rest := by
    apply trim_eq_self _ '\'' last
    · rw [htext_data]; rfl
    · decide
    · rw [htext_data]
      have hne : rest.data ≠ [] := by
        intro h0
        rw [h0] at hlast
        simp at hlast
      rw [← List.append_assoc, ← List.append_assoc, List.getLast?_append_of_ne_nil _ hne]
      exact hlast
    · exact hspace
  -- what the second pattern captures
  have hid : regex_search re_identifier (trim ("'" ++ identifier ++ "' : " ++ rest) " ")
      = ["'" ++ identifier ++ "' : " ++ rest, identifier, rest] := by
    rw [htrim]
    have h := regex_search_identifier_form identifier.data rest.data hident hrest (by
      intro j hj
      rw [← hid_tail_data]
      exact honce_id j hj)
    rw [← htext_data] at h
    exact h
  rw [diagnostics_step_matching (split_string content "\n") ds _ _ severity number
      ("'" ++ identifier ++ "' : " ++ rest) n source_line hm hn h1 hline,
    char_range_identifier _ source_line _ identifier rest i hid hocc hlen, htrim]

/-- C6 at the input of the spec: the log line
`ERROR: 0:5: 'foo' : undeclared identifier` and a source whose line 4 is
`  foo = 1;` give start (4, 2), end (4, 4), severity 1 and the message
`'foo' : undeclared identifier`. -/
theorem C6_identifier_range_of_form_witness :
    (∀ j, 0 < j → ¬ occurs_at ": 0:".data
      (": 0:" ++ "5" ++ ": " ++ ("'" ++ "foo" ++ "' : " ++ "undeclared identifier")).data j) ∧
    (∀ j, 0 < j → ¬ occurs_at "' : ".data ("' : " ++ "undeclared identifier").data j) ∧
    "undeclared identifier".data.getLast? = some 'r' ∧
    stoi "5" = .ok 5 ∧
    (split_string "void main()\n\x7b\n  int a;\n  a = 0;\n  foo = 1;\n\x7d" "\n").get? 4
      = some "  foo = 1;" ∧
    first_occurrence "foo".data "  foo = 1;".data 2 ∧
    diagnostics_step (split_string "void main()\n\x7b\n  int a;\n  a = 0;\n  foo = 1;\n\x7d" "\n")
        (diagnostics_value []) "ERROR: 0:5: 'foo' : undeclared identifier"
      = .ok (diagnostics_value
          [diagnostic_json 4 2 4 1 "'foo' : undeclared identifier"]) :=
  ⟨occurs_only_at_start_of_bounded _ _ (by decide) (by decide),
    occurs_only_at_start_of_bounded _ _ (by decide) (by decide),
    rfl, rfl, rfl, by decide,
    C6_identifier_range_of_form "void main()\n\x7b\n  int a;\n  a = 0;\n  foo = 1;\n\x7d" []
      "ERROR" "5" "foo" "undeclared identifier" 'r' 5 "  foo = 1;" 2
      (by decide) (by decide) (by decide) (by decide) rfl (by decide)
      (occurs_only_at_start_of_bounded _ _ (by decide) (by decide))
      (occurs_only_at_start_of_bounded _ _ (by decide) (by decide))
      rfl (by decide) rfl (by decide) (by decide)⟩

/-- C6 as stated fails at these inputs. The log line
`ERROR: 0:1: 'foo' : bad: 0:2: tail` is written `SEVERITY: 0:N: 'ID' : REST`
with the severity `ERROR`, the number 1, the identifier `foo` and the rest
`bad: 0:2: tail`, and line 0 of the source, `foo`, has the identifier at offset
0, so that the claim has start (0, 0), end (0, 2) and severity 1. The first
group of the pattern is greedy and takes the text up to the last `: 0:`: the
diagnostic added is for line 1, with the range of the whole line `bar`, the
severity -1 and the message `tail`. In the same way, on the line
`ERROR: 0:1: 'a' : 'b' : c` the identifier captured is `a' : 'b`, which the
source line `a` does not have, and on the line `ERROR: 0:1: 'foo' : `, whose
rest is empty, the trimmed message `'foo' :` names no identifier and the range
is that of the whole line. -/
theorem C6_counterexample_separator_recurs :
    "ERROR: 0:1: 'foo' : bad: 0:2: tail"
      = "ERROR" ++ ": 0:" ++ "1" ++ ": " ++ ("'" ++ "foo" ++ "' : " ++ "bad: 0:2: tail") ∧
    stoi "1" = .ok 1 ∧
    (split_string "foo\nbar" "\n").get? 0 = some "foo" ∧
    first_occurrence "foo".data "foo".data 0 ∧
    regex_search re_diagnostic "ERROR: 0:1: 'foo' : bad: 0:2: tail"
      = ["ERROR: 0:1: 'foo' : bad: 0:2: tail", "ERROR: 0:1: 'foo' : bad", "2", "tail"] ∧
    diagnostics_step (split_string "foo\nbar" "\n") (diagnostics_value [])
        "ERROR: 0:1: 'foo' : bad: 0:2: tail"
      = .ok (.arr [diagnostic_json 1 0 3 (-1) "tail"]) ∧
    diagnostic_json 1 0 3 (-1) "tail"
      ≠ diagnostic_json 0 0 2 1 "'foo' : bad: 0:2: tail" ∧
    "ERROR: 0:1: 'a' : 'b' : c"
      = "ERROR" ++ ": 0:" ++ "1" ++ ": " ++ ("'" ++ "a" ++ "' : " ++ "'b' : c") ∧
    first_occurrence "a".data "a".data 0 ∧
    diagnostics_step ["a"] (diagnostics_value []) "ERROR: 0:1: 'a' : 'b' : c"
      = .ok (.arr [diagnostic_json 0 (-1) 5 1 "'a' : 'b' : c"]) ∧
    "ERROR: 0:1: 'foo' : "
      = "ERROR" ++ ": 0:" ++ "1" ++ ": " ++ ("'" ++ "foo" ++ "' : " ++ "") ∧
    diagnostics_step ["foo"] (diagnostics_value []) "ERROR: 0:1: 'foo' : "
      = .ok (.arr [diagnostic_json 0 0 3 1 "'foo' :"]) := by
  refine ⟨by decide, rfl, rfl, by decide, rfl, rfl, ?_, by decide, by decide, rfl,
    by decide, rfl⟩
  simp [diagnostic_json]

/-! ## Claims that fail through the defects of C7 and C19: C10 and C13 -/

/-- C10, the code at failing inputs: the log lines `NOTE: 0:: y` and
`NOTE: 0:9: y` match the pattern and have a severity token that is neither
`ERROR` nor `WARNING`, yet no diagnostic with the severity -1 is added: on the
first `std::stoi` raises `std::invalid_argument` on the empty number, on the
second `content_lines[8]` is read outside the vector, and the translation ends.
The line `NOTE: 0:1: y`, whose number is that of a line of the source, gets its
diagnostic with the severity -1. -/
theorem C10_unknown_severity_line_not_emitted :
    is_diagnostic_line "NOTE: 0:: y" = true ∧
    translate "NOTE: 0:: y" "x" = .error (.invalid_argument "stoi") ∧
    is_diagnostic_line "NOTE: 0:9: y" = true ∧
    translate "NOTE: 0:9: y" "x" = .error .vector_out_of_bounds ∧
    translate "NOTE: 0:1: y" "x" = .ok (.arr [diagnostic_json 0 0 1 (-1) "y"]) := by
  refine ⟨rfl, rfl, rfl, rfl, rfl⟩

/-- C13, the code at a failing input: the document `shader.frag`, of a kind
`find_language` knows, is opened with a text of two lines, and the validator
reports an error for line 9. The document is stored, and `handle_message`
returns no notification: `content_lines[8]` is read outside the vector. With a
log that names line 2 the notification is returned, with an array of one
diagnostic. -/
theorem C13_did_open_without_notification :
    find_language "shader.frag" = .ok .EShLangFragment ∧
    (handle_message (sample_libraries "ERROR: 0:9: 'foo' : undeclared identifier")
        (did_open_message "shader.frag" "#line 9\nfoo = 1;") ready_state).result
      = .error .vector_out_of_bounds ∧
    (handle_message (sample_libraries "ERROR: 0:9: 'foo' : undeclared identifier")
        (did_open_message "shader.frag" "#line 9\nfoo = 1;")
        ready_state).appstate.workspace.documents "shader.frag" = some "#line 9\nfoo = 1;" ∧
    (handle_message (sample_libraries "ERROR: 0:2: 'foo' : undeclared identifier")
        (did_open_message "shader.frag" "#line 9\nfoo = 1;") ready_state).result
      = (make_response (sample_libraries "ERROR: 0:2: 'foo' : undeclared identifier")
          (publish_body (.str "shader.frag")
            (.arr [diagnostic_json 1 0 2 1 "'foo' : undeclared identifier"]))).map some := by
  refine ⟨rfl, rfl, rfl, rfl⟩

end GlslLs
